import Mathlib

/-!
Verification of the browser toolkit components (image crop/resize/convert and
PDF split/merge) against their natural-language specification.

The TypeScript/Svelte sources are shallowly embedded: JavaScript numbers that
carry pixel dimensions or ratios become `ℤ`/`ℚ`, `null`-able fields become
`Option`, stateful component variables become fields of explicit state
records, DOM / browser effects (object URLs, appended elements, canvas
encoding) become explicit data threaded through the functions, and
asynchronous browser results (image decode, `canvas.toBlob`) become oracle
parameters.  Every definition follows the corresponding source function
line by line.
-/

namespace Toolkit

/-- `MAX_DIMENSION = 8192` from ImageToolkit. -/
def MAX_DIMENSION : ℤ := 8192

/-- `MAX_FILE_SIZE_BYTES = 50 * 1024 * 1024` from ImageToolkit. -/
def MAX_FILE_SIZE_BYTES : ℕ := 50 * 1024 * 1024

/-- `CUSTOM_PRESET_VALUE = 'custom'` from ImageToolkit. -/
def CUSTOM_PRESET_VALUE : String := "custom"

/-! ## utils/file.ts: `getFileStem` and `deriveFileName` -/

/-- A character matching the `[^./]` class of the extension regex in
`getFileStem` (`/\.[^./]+$/`). -/
def isExtChar (c : Char) : Bool := c ≠ '.' && c ≠ '/'

/-- `getFileStem` on the character list: `fileName.replace(/\.[^./]+$/, '')`.
The regex matches a final dot followed by one or more characters that are
neither `.` nor `/`; on a match that tail is removed, otherwise the name is
returned unchanged. -/
def getFileStemL (cs : List Char) : List Char :=
  let rev := cs.reverse
  let tail := rev.takeWhile isExtChar
  if tail.isEmpty then cs
  else
    match rev.drop tail.length with
    | '.' :: rest => rest.reverse
    | _ => cs

/-- `getFileStem (fileName: string)` from utils/file.ts. -/
def getFileStem (fileName : String) : String := ⟨getFileStemL fileName.data⟩

/-- A character kept by the sanitising replace
`.replace(/[^a-z0-9-_]/gi, '-')`: ASCII letter (either case), digit,
dash or underscore. -/
def isKeptChar (c : Char) : Bool :=
  ('a' ≤ c && c ≤ 'z') || ('A' ≤ c && c ≤ 'Z') || ('0' ≤ c && c ≤ '9') ||
    c = '-' || c = '_'

/-- `.replace(/[^a-z0-9-_]/gi, '-')`: every character outside the class is
replaced by a dash. -/
def sanitizeL (cs : List Char) : List Char :=
  cs.map (fun c => if isKeptChar c then c else '-')

/-- The dash-collapsing replace of `deriveFileName`: collapse every run of dashes to a single dash. -/
def collapseDashes : List Char → List Char
  | [] => []
  | [c] => [c]
  | a :: b :: rest =>
    if a = '-' && b = '-' then collapseDashes (b :: rest)
    else a :: collapseDashes (b :: rest)

/-- One alternative of the boundary-dash replace (regex: start-dash or
end-dash, global): drop a single leading dash. -/
def dropLeadDash (cs : List Char) : List Char :=
  match cs with
  | c :: rest => if c = '-' then rest else c :: rest
  | [] => []

/-- The other alternative of the boundary-dash replace: drop a single
trailing dash. -/
def dropTrailDash (cs : List Char) : List Char :=
  (dropLeadDash cs.reverse).reverse

/-- The boundary-dash replace on the collapsed stem: the global regex removes
at most one leading and one trailing dash. -/
def stripDashes (cs : List Char) : List Char :=
  dropTrailDash (dropLeadDash cs)

/-- The `stem` local of `deriveFileName`, on character lists:
sanitise the file stem, collapse dash runs, strip boundary dashes, and fall
back to `'processed-file'` when the result is empty. -/
def deriveStemL (cs : List Char) : List Char :=
  let s := stripDashes (collapseDashes (sanitizeL (getFileStemL cs)))
  if s.isEmpty then "processed-file".data else s

/-- `deriveFileName ({ originalName, targetExtension, suffix })` from
utils/file.ts. -/
def deriveFileName (originalName targetExtension : String)
    (suffix : Option String) : String :=
  let stem : String := ⟨deriveStemL originalName.data⟩
  stem ++ (match suffix with | some suf => "-" ++ suf | none => "") ++
    "." ++ targetExtension

/-- No two adjacent dashes. -/
def NoDashRun (cs : List Char) : Prop :=
  List.Chain' (fun a b => ¬(a = '-' ∧ b = '-')) cs

theorem sanitizeL_kept (cs : List Char) :
    ∀ c ∈ sanitizeL cs, isKeptChar c = true := by
  intro c hc
  rcases List.mem_map.mp hc with ⟨a, _, rfl⟩
  by_cases h : isKeptChar a = true
  · simp [h]
  · rw [if_neg h]
    decide

theorem collapseDashes_head (l : List Char) :
    (collapseDashes l).head? = l.head? := by
  induction l using collapseDashes.induct with
  | case1 => rfl
  | case2 c => rfl
  | case3 a b rest h ih =>
      have hab := (Bool.and_eq_true _ _).mp h
      have ha : a = '-' := of_decide_eq_true hab.1
      have hb : b = '-' := of_decide_eq_true hab.2
      rw [collapseDashes, if_pos h, ih]
      simp [ha, hb]
  | case4 a b rest h ih =>
      rw [collapseDashes, if_neg h]
      simp

theorem collapseDashes_subset (l : List Char) :
    ∀ x ∈ collapseDashes l, x ∈ l := by
  induction l using collapseDashes.induct with
  | case1 => intro x hx; exact absurd hx (by simp [collapseDashes])
  | case2 c => intro x hx; simpa [collapseDashes] using hx
  | case3 a b rest h ih =>
      intro x hx
      rw [collapseDashes, if_pos h] at hx
      exact List.mem_cons_of_mem a (ih x hx)
  | case4 a b rest h ih =>
      intro x hx
      rw [collapseDashes, if_neg h] at hx
      rcases List.mem_cons.mp hx with rfl | hx
      · exact List.mem_cons_self x _
      · exact List.mem_cons_of_mem a (ih x hx)

theorem collapseDashes_noRun (l : List Char) : NoDashRun (collapseDashes l) := by
  induction l using collapseDashes.induct with
  | case1 => simp [NoDashRun, collapseDashes]
  | case2 c => simp [NoDashRun, collapseDashes]
  | case3 a b rest h ih =>
      rw [NoDashRun, collapseDashes, if_pos h]
      exact ih
  | case4 a b rest h ih =>
      rw [NoDashRun, collapseDashes, if_neg h]
      refine List.chain'_cons'.mpr ⟨?_, ih⟩
      intro y hy
      rw [collapseDashes_head (b :: rest)] at hy
      simp only [List.head?_cons, Option.mem_def, Option.some.injEq] at hy
      subst hy
      rintro ⟨rfl, rfl⟩
      simp at h

theorem dropLeadDash_subset (l : List Char) :
    ∀ x ∈ dropLeadDash l, x ∈ l := by
  intro x hx
  cases l with
  | nil => simp [dropLeadDash] at hx
  | cons c rest =>
      rw [dropLeadDash] at hx
      by_cases hc : c = '-'
      · rw [if_pos hc] at hx
        exact List.mem_cons_of_mem _ hx
      · rwa [if_neg hc] at hx

theorem dropLeadDash_noRun (l : List Char) (h : NoDashRun l) :
    NoDashRun (dropLeadDash l) := by
  cases l with
  | nil => simpa [dropLeadDash] using h
  | cons c rest =>
      rw [dropLeadDash]
      by_cases hc : c = '-'
      · rw [if_pos hc]
        exact (List.chain'_cons'.mp h).2
      · rwa [if_neg hc]

theorem dropLeadDash_head (l : List Char) (h : NoDashRun l) :
    (dropLeadDash l).head? ≠ some '-' := by
  cases l with
  | nil => simp [dropLeadDash]
  | cons c rest =>
      rw [dropLeadDash]
      by_cases hc : c = '-'
      · rw [if_pos hc]
        cases rest with
        | nil => simp
        | cons d rest2 =>
            have hR := (List.chain'_cons.mp h).1
            simp only [List.head?_cons, ne_eq, Option.some.injEq]
            intro hd
            exact hR ⟨hc, hd⟩
      · rw [if_neg hc]
        simp only [List.head?_cons, ne_eq, Option.some.injEq]
        exact hc

theorem dropLeadDash_eq_or (l : List Char) :
    dropLeadDash l = l ∨ dropLeadDash l = l.tail := by
  cases l with
  | nil => left; rfl
  | cons c rest =>
      rw [dropLeadDash]
      by_cases hc : c = '-'
      · right; rw [if_pos hc]; rfl
      · left; rw [if_neg hc]

theorem noDashRun_reverse (l : List Char) (h : NoDashRun l) :
    NoDashRun l.reverse := by
  rw [NoDashRun, List.chain'_reverse]
  exact List.Chain'.imp (fun a b hab hba => hab ⟨hba.2, hba.1⟩) h

theorem dropTrailDash_subset (l : List Char) :
    ∀ x ∈ dropTrailDash l, x ∈ l := by
  intro x hx
  rw [dropTrailDash, List.mem_reverse] at hx
  have := dropLeadDash_subset l.reverse x hx
  simp at this; exact this

theorem dropTrailDash_noRun (l : List Char) (h : NoDashRun l) :
    NoDashRun (dropTrailDash l) :=
  noDashRun_reverse _ (dropLeadDash_noRun _ (noDashRun_reverse l h))

theorem dropTrailDash_getLast (l : List Char) (h : NoDashRun l) :
    (dropTrailDash l).getLast? ≠ some '-' := by
  rw [dropTrailDash, List.getLast?_reverse]
  exact dropLeadDash_head _ (noDashRun_reverse l h)

theorem dropTrailDash_head (l : List Char) (h : l.head? ≠ some '-') :
    (dropTrailDash l).head? ≠ some '-' := by
  rcases dropLeadDash_eq_or l.reverse with heq | heq
  · rw [dropTrailDash, heq]
    simpa using h
  · rw [dropTrailDash, heq, List.tail_reverse, List.reverse_reverse]
    cases l with
    | nil => simp
    | cons c rest =>
        cases rest with
        | nil => simp
        | cons d rest2 =>
            simpa using h

theorem stripDashes_subset (l : List Char) :
    ∀ x ∈ stripDashes l, x ∈ l :=
  fun x hx => dropLeadDash_subset l x (dropTrailDash_subset _ x hx)

theorem stripDashes_noRun (l : List Char) (h : NoDashRun l) :
    NoDashRun (stripDashes l) :=
  dropTrailDash_noRun _ (dropLeadDash_noRun l h)

theorem stripDashes_head (l : List Char) (h : NoDashRun l) :
    (stripDashes l).head? ≠ some '-' :=
  dropTrailDash_head _ (dropLeadDash_head l h)

theorem stripDashes_getLast (l : List Char) (h : NoDashRun l) :
    (stripDashes l).getLast? ≠ some '-' :=
  dropTrailDash_getLast _ (dropLeadDash_noRun l h)

theorem fallbackStem_chars :
    "processed-file".data
      = ['p', 'r', 'o', 'c', 'e', 's', 's', 'e', 'd', '-', 'f', 'i', 'l', 'e'] :=
  rfl

theorem fallbackStem_ok :
    ("processed-file".data ≠ [] ∧
      (∀ c ∈ "processed-file".data, isKeptChar c = true)) ∧
    ("processed-file".data.head? ≠ some '-' ∧
      "processed-file".data.getLast? ≠ some '-') ∧
    List.Chain' (fun a b => ¬(a = '-' ∧ b = '-')) "processed-file".data := by
  rw [fallbackStem_chars]
  refine ⟨⟨by decide, by decide⟩, ⟨by decide, by decide⟩, ?_⟩
  simp only [List.chain'_cons, List.chain'_singleton]
  decide

theorem deriveStemL_ok (cs : List Char) :
    deriveStemL cs ≠ [] ∧
    (∀ c ∈ deriveStemL cs, isKeptChar c = true) ∧
    (deriveStemL cs).head? ≠ some '-' ∧
    (deriveStemL cs).getLast? ≠ some '-' ∧
    NoDashRun (deriveStemL cs) := by
  rw [deriveStemL]
  by_cases he :
      (stripDashes (collapseDashes (sanitizeL (getFileStemL cs)))).isEmpty = true
  · rw [if_pos he]
    exact ⟨fallbackStem_ok.1.1, fallbackStem_ok.1.2, fallbackStem_ok.2.1.1,
      fallbackStem_ok.2.1.2, fallbackStem_ok.2.2⟩
  · rw [if_neg he]
    have hrun : NoDashRun (stripDashes (collapseDashes (sanitizeL (getFileStemL cs)))) :=
      stripDashes_noRun _ (collapseDashes_noRun _)
    refine ⟨?_, ?_, ?_, ?_, hrun⟩
    · intro hnil
      rw [List.isEmpty_iff] at he
      exact he hnil
    · intro c hc
      exact sanitizeL_kept _ c
        (collapseDashes_subset _ c (stripDashes_subset _ c hc))
    · exact stripDashes_head _ (collapseDashes_noRun _)
    · exact stripDashes_getLast _ (collapseDashes_noRun _)

/-- C9: `deriveFileName` always produces `<stem>[-suffix].<targetExtension>`
where the stem is non-empty, consists only of ASCII letters, digits, dashes
and underscores, has no leading or trailing dash and no run of consecutive
dashes; an empty sanitised stem falls back to `processed-file`. -/
theorem deriveFileName_shape (originalName targetExtension : String)
    (suffix : Option String) :
    ∃ stem : String,
      deriveFileName originalName targetExtension suffix
        = stem ++ (match suffix with | some suf => "-" ++ suf | none => "") ++
            "." ++ targetExtension ∧
      stem.data ≠ [] ∧
      (∀ c ∈ stem.data, isKeptChar c = true) ∧
      stem.data.head? ≠ some '-' ∧
      stem.data.getLast? ≠ some '-' ∧
      NoDashRun stem.data := by
  refine ⟨⟨deriveStemL originalName.data⟩, rfl, ?_⟩
  exact deriveStemL_ok originalName.data


/-! ## PDF toolkit: page order, selection, export (second script of the
component file) -/

/-- `type ImageAsset` of the PDF toolkit; the `File` handle and object URL
are represented by numeric identifiers. -/
structure ImageAsset where
  id : ℕ
  objectUrl : ℕ
  name : String
  size : ℕ
  type : String
  width : ℤ
  height : ℤ
deriving DecidableEq, Repr

/-- `type LoadedPdf` of the PDF toolkit.  The raw bytes, thumbnails,
metadata and urls take no part in the ordering/selection logic and are
represented by identifiers. -/
structure LoadedPdf where
  id : ℕ
  name : String
  size : ℕ
  arrayBuffer : ℕ
  objectUrl : ℕ
  pageCount : ℕ
  pageThumbs : List (Option String)
  pageSelection : Finset ℕ
  lastSelectedIndex : Option ℕ
  pageOrder : List ℕ
  previewUrl : Option ℕ
deriving DecidableEq

/-- The `LoadedPdf` literal built inside `loadPdfFiles` for a successfully
parsed file: empty selection, no last-selected index, and
`pageOrder = Array.from({ length: pageCount }, (_, i) => i)`, the identity
permutation. -/
def loadPdfEntry (id : ℕ) (name : String) (size : ℕ) (buf : ℕ) (url : ℕ)
    (pageCount : ℕ) : LoadedPdf :=
  { id := id, name := name, size := size, arrayBuffer := buf,
    objectUrl := url, pageCount := pageCount,
    pageThumbs := List.replicate pageCount none,
    pageSelection := ∅, lastSelectedIndex := none,
    pageOrder := List.range pageCount, previewUrl := none }

/-- `setPageSelection(pdf, next, last)`: replace the selection and the
last-selected index of the pdf entry. -/
def setPageSelection (pdf : LoadedPdf) (next : Finset ℕ) (last : Option ℕ) :
    LoadedPdf :=
  { pdf with pageSelection := next, lastSelectedIndex := last }

/-- `togglePageSelection(pdf, pageIndex, event)`: with shift held and a
previous anchor, select the whole inclusive range between the anchor and
the clicked page; otherwise toggle the clicked page.  The JS
`[start, end] = [last, pageIndex].sort((a, b) => a - b)` is the
min/max pair. -/
def togglePageSelection (pdf : LoadedPdf) (pageIndex : ℕ) (shiftKey : Bool) :
    LoadedPdf :=
  let next :=
    if shiftKey = true ∧ pdf.lastSelectedIndex ≠ none then
      match pdf.lastSelectedIndex with
      | some last =>
          pdf.pageSelection ∪ Finset.Icc (min last pageIndex) (max last pageIndex)
      | none => pdf.pageSelection
    else if pageIndex ∈ pdf.pageSelection then pdf.pageSelection.erase pageIndex
    else insert pageIndex pdf.pageSelection
  setPageSelection pdf next (some pageIndex)

/-- `selectAllPages(pdf)`: select indices `0 .. pageCount - 1`
(the loop `for (let i = 0; i < pdf.pageCount; i += 1) next.add(i)`).
The call passes no third argument, so `setPageSelection` keeps
`pdf.lastSelectedIndex` (its default parameter). -/
def selectAllPages (pdf : LoadedPdf) : LoadedPdf :=
  setPageSelection pdf (Finset.range pdf.pageCount) pdf.lastSelectedIndex

/-- `clearPageSelection(pdf)`: empty selection, anchor cleared. -/
def clearPageSelection (pdf : LoadedPdf) : LoadedPdf :=
  setPageSelection pdf ∅ none

/-- The splice-based reorder shared by `movePage` and `moveImage`:
`if (fromPos === toPos) return` and both range guards leave the list
unchanged; otherwise `splice(fromPos, 1)` removes the element and
`splice(toPos, 0, item)` reinserts it. -/
def spliceMove {α : Type} (l : List α) (fromPos toPos : ℤ) : List α :=
  if fromPos = toPos then l
  else if fromPos < 0 ∨ (l.length : ℤ) ≤ fromPos then l
  else if toPos < 0 ∨ (l.length : ℤ) ≤ toPos then l
  else
    match l.get? fromPos.toNat with
    | none => l
    | some x => (l.eraseIdx fromPos.toNat).insertIdx toPos.toNat x

/-- `movePage(pdf, fromPos, toPos)`: reorder `pageOrder` by splice; the
surrounding `pdfFiles` rebuild copies every other field unchanged. -/
def movePage (pdf : LoadedPdf) (fromPos toPos : ℤ) : LoadedPdf :=
  { pdf with pageOrder := spliceMove pdf.pageOrder fromPos toPos }

/-- `movePageStep(pdf, pos, dir)`. -/
def movePageStep (pdf : LoadedPdf) (pos : ℤ) (dir : ℤ) : LoadedPdf :=
  movePage pdf pos (pos + dir)

/-- `onDrop(pdf, pos)` with an active drag source `dragPos`. -/
def onDropPage (pdf : LoadedPdf) (dragPos : Option ℤ) (pos : ℤ) : LoadedPdf :=
  match dragPos with
  | none => pdf
  | some fromPos => movePage pdf fromPos pos

/-- `moveImage(fromPos, toPos)` on the `imageAssets` list. -/
def moveImage (assets : List ImageAsset) (fromPos toPos : ℤ) : List ImageAsset :=
  spliceMove assets fromPos toPos

/-- `exportSelectedPages(pdf)`, reduced to the page indices of the produced
document: with an empty selection it only reports an error; otherwise the
document receives `copyPages(src, inOrder)` in order, where
`inOrder = pdf.pageOrder.filter((idx) => pdf.pageSelection.has(idx))`. -/
def exportSelectedPages (pdf : LoadedPdf) : Option (List ℕ) :=
  if pdf.pageSelection.card = 0 then none
  else some (pdf.pageOrder.filter (fun idx => idx ∈ pdf.pageSelection))

theorem perm_cons_eraseIdx {α : Type} :
    ∀ (l : List α) (i : ℕ) (x : α), l.get? i = some x →
      List.Perm l (x :: l.eraseIdx i) := by
  intro l
  induction l with
  | nil => intro i x h; simp at h
  | cons a rest ih =>
      intro i x h
      cases i with
      | zero =>
          simp only [List.get?] at h
          injection h with h
          subst h
          simp [List.eraseIdx]
      | succ i =>
          simp only [List.get?] at h
          have hr := ih i x h
          have h1 : (a :: rest).Perm (a :: (x :: rest.eraseIdx i)) := hr.cons a
          have h2 : (a :: (x :: rest.eraseIdx i)).Perm
              (x :: (a :: rest.eraseIdx i)) := List.Perm.swap x a _
          have h3 : (a :: rest).eraseIdx (i + 1) = a :: rest.eraseIdx i := rfl
          rw [h3]
          exact h1.trans h2

theorem spliceMove_perm {α : Type} (l : List α) (f t : ℤ) :
    List.Perm (spliceMove l f t) l := by
  rw [spliceMove]
  split
  · exact List.Perm.refl l
  split
  · exact List.Perm.refl l
  split
  · exact List.Perm.refl l
  rename_i hft hf ht
  rcases not_or.mp hf with ⟨hf0, hflen⟩
  rcases not_or.mp ht with ⟨ht0, htlen⟩
  have hfl : f.toNat < l.length := by omega
  have htl : (t.toNat : ℤ) < l.length := by omega
  split
  · exact List.Perm.refl l
  rename_i x hx
  have herase : (l.eraseIdx f.toNat).length + 1 = l.length :=
    List.length_eraseIdx_add_one hfl
  have hins : t.toNat ≤ (l.eraseIdx f.toNat).length := by omega
  have hp1 : ((l.eraseIdx f.toNat).insertIdx t.toNat x).Perm
      (x :: l.eraseIdx f.toNat) := List.perm_insertIdx x _ hins
  exact hp1.trans (perm_cons_eraseIdx l f.toNat x hx).symm

/-- C10: `pageOrder` starts as the identity permutation on load, every
reorder operation (`movePage`, `movePageStep`, drag-and-drop `onDrop`)
permutes it in place — rejecting out-of-range source or target positions —
so it stays a permutation of `{0, …, pageCount−1}`; and `moveImage`
permutes the `imageAssets` list the same way. -/
theorem pageOrder_always_permutation (pdf : LoadedPdf)
    (assets : List ImageAsset) (i : ℕ) (nm : String) (sz buf url n : ℕ)
    (f t pos dir : ℤ) (dragPos : Option ℤ)
    (horder : List.Perm pdf.pageOrder (List.range pdf.pageCount)) :
    (loadPdfEntry i nm sz buf url n).pageOrder = List.range n ∧
    List.Perm (movePage pdf f t).pageOrder (List.range pdf.pageCount) ∧
    List.Perm (movePageStep pdf pos dir).pageOrder (List.range pdf.pageCount) ∧
    List.Perm (onDropPage pdf dragPos pos).pageOrder (List.range pdf.pageCount) ∧
    List.Perm (moveImage assets f t) assets := by
  refine ⟨rfl, ?_, ?_, ?_, ?_⟩
  · exact ((spliceMove_perm pdf.pageOrder f t).trans horder)
  · exact ((spliceMove_perm pdf.pageOrder pos (pos + dir)).trans horder)
  · cases dragPos with
    | none => exact horder
    | some fp => exact ((spliceMove_perm pdf.pageOrder fp pos).trans horder)
  · exact spliceMove_perm assets f t

/-- Witness for `pageOrder_always_permutation` at a concrete pdf entry. -/
theorem pageOrder_always_permutation_wit :
    List.Perm
      (movePage
        { id := 0, name := "doc.pdf", size := 9, arrayBuffer := 0,
          objectUrl := 0, pageCount := 3,
          pageThumbs := [none, none, none],
          pageSelection := ∅, lastSelectedIndex := none,
          pageOrder := [2, 0, 1], previewUrl := none }
        0 2).pageOrder
      (List.range 3) :=
  (pageOrder_always_permutation
    { id := 0, name := "doc.pdf", size := 9, arrayBuffer := 0,
      objectUrl := 0, pageCount := 3,
      pageThumbs := [none, none, none],
      pageSelection := ∅, lastSelectedIndex := none,
      pageOrder := [2, 0, 1], previewUrl := none }
    [] 1 "x.pdf" 2 3 4 3 0 2 1 (-1) none (by decide)).2.1

/-- C4: every selection operation keeps `pageSelection` inside
`{0, …, pageCount−1}`, and `movePage` leaves the selection (and the page
count) untouched, so reordering never invalidates it. -/
theorem pageSelection_valid (pdf : LoadedPdf) (pageIndex : ℕ)
    (shiftKey : Bool) (f t : ℤ)
    (hsel : pdf.pageSelection ⊆ Finset.range pdf.pageCount)
    (hidx : pageIndex < pdf.pageCount)
    (hlast : ∀ j, pdf.lastSelectedIndex = some j → j < pdf.pageCount) :
    (togglePageSelection pdf pageIndex shiftKey).pageSelection
        ⊆ Finset.range pdf.pageCount ∧
    (selectAllPages pdf).pageSelection ⊆ Finset.range pdf.pageCount ∧
    (clearPageSelection pdf).pageSelection ⊆ Finset.range pdf.pageCount ∧
    (movePage pdf f t).pageSelection = pdf.pageSelection ∧
    (movePage pdf f t).pageCount = pdf.pageCount := by
  refine ⟨?_, ?_, ?_, rfl, rfl⟩
  · rw [togglePageSelection]
    split
    · rename_i hshift
      cases hL : pdf.lastSelectedIndex with
      | none => simpa [setPageSelection, hL] using hsel
      | some last =>
          simp only [hL, setPageSelection]
          intro x hx
          rcases Finset.mem_union.mp hx with hx | hx
          · exact hsel hx
          · rcases Finset.mem_Icc.mp hx with ⟨_, hx2⟩
            have : x < pdf.pageCount :=
              lt_of_le_of_lt hx2 (max_lt (hlast last hL) hidx)
            exact Finset.mem_range.mpr this
    · split
      · intro x hx
        exact hsel (Finset.mem_of_mem_erase hx)
      · intro x hx
        rcases Finset.mem_insert.mp hx with rfl | hx
        · exact Finset.mem_range.mpr hidx
        · exact hsel hx
  · intro x hx
    exact hx
  · intro x hx
    simp [clearPageSelection, setPageSelection] at hx
  
/-- Witness for `pageSelection_valid`. -/
theorem pageSelection_valid_wit :
    (togglePageSelection
      { id := 0, name := "doc.pdf", size := 9, arrayBuffer := 0,
        objectUrl := 0, pageCount := 4,
        pageThumbs := [none, none, none, none],
        pageSelection := {1}, lastSelectedIndex := some 1,
        pageOrder := [0, 1, 2, 3], previewUrl := none }
      3 true).pageSelection ⊆ Finset.range 4 :=
  (pageSelection_valid
    { id := 0, name := "doc.pdf", size := 9, arrayBuffer := 0,
      objectUrl := 0, pageCount := 4,
      pageThumbs := [none, none, none, none],
      pageSelection := {1}, lastSelectedIndex := some 1,
      pageOrder := [0, 1, 2, 3], previewUrl := none }
    3 true 0 2 (by decide) (by decide)
    (by intro j hj; injection hj with hj; subst hj; decide)).1

/-- C2: after `selectAllPages` the selection is all of
`{0, …, pageCount−1}`, so `exportSelectedPages` keeps every entry of
`pageOrder` and the exported document has exactly `pageCount` pages. -/
theorem selectAll_export_pageCount (pdf : LoadedPdf)
    (hlen : pdf.pageOrder.length = pdf.pageCount)
    (hmem : ∀ x ∈ pdf.pageOrder, x < pdf.pageCount)
    (hpos : 0 < pdf.pageCount) :
    ∃ doc : List ℕ,
      exportSelectedPages (selectAllPages pdf) = some doc ∧
      doc = pdf.pageOrder ∧
      doc.length = pdf.pageCount := by
  refine ⟨pdf.pageOrder, ?_, rfl, hlen⟩
  rw [exportSelectedPages]
  have hcard : (selectAllPages pdf).pageSelection.card = pdf.pageCount := by
    simp [selectAllPages, setPageSelection]
  rw [if_neg (by rw [hcard]; omega)]
  congr 1
  have : (selectAllPages pdf).pageOrder = pdf.pageOrder := rfl
  rw [this]
  apply List.filter_eq_self.mpr
  intro a ha
  have : a ∈ (selectAllPages pdf).pageSelection := by
    simp [selectAllPages, setPageSelection]
    exact hmem a ha
  exact decide_eq_true this

/-- Witness for `selectAll_export_pageCount`. -/
theorem selectAll_export_pageCount_wit :
    ∃ doc : List ℕ,
      exportSelectedPages
        (selectAllPages
          { id := 0, name := "doc.pdf", size := 9, arrayBuffer := 0,
            objectUrl := 0, pageCount := 3,
            pageThumbs := [none, none, none],
            pageSelection := ∅, lastSelectedIndex := none,
            pageOrder := [2, 0, 1], previewUrl := none }) = some doc ∧
      doc = [2, 0, 1] ∧
      doc.length = 3 :=
  selectAll_export_pageCount
    { id := 0, name := "doc.pdf", size := 9, arrayBuffer := 0,
      objectUrl := 0, pageCount := 3,
      pageThumbs := [none, none, none],
      pageSelection := ∅, lastSelectedIndex := none,
      pageOrder := [2, 0, 1], previewUrl := none }
    (by decide) (by decide) (by decide)



/-! ## Image toolkit: state, dimension and aspect-ratio logic (first script
of the component file) -/

/-- `type Mode = 'resize' | 'crop'`. -/
inductive Mode
  | resize
  | crop
deriving DecidableEq, Repr

/-- `type CropShape = 'square' | 'circle'`. -/
inductive CropShape
  | square
  | circle
deriving DecidableEq, Repr

/-- The `lastChanged: 'width' | 'height' | null` tag (`null` is `Option`). -/
inductive Changed
  | width
  | height
deriving DecidableEq, Repr

/-- A candidate `File`: name, byte size and MIME type. -/
structure FileRec where
  name : String
  size : ℕ
  type : String
deriving DecidableEq, Repr

/-- A produced `Blob`: byte size and MIME type. -/
structure BlobRec where
  size : ℕ
  type : String
deriving DecidableEq, Repr

/-- `type FormatOption` of the image toolkit. -/
structure FormatOption where
  label : String
  value : String
  extension : String
  lossless : Bool
deriving DecidableEq, Repr, Inhabited

/-- `FORMAT_OPTIONS` of the image toolkit. -/
def FORMAT_OPTIONS : List FormatOption := [
  { label := "PNG · lossless", value := "image/png", extension := "png",
    lossless := true },
  { label := "JPEG · smaller files", value := "image/jpeg", extension := "jpg",
    lossless := false },
  { label := "WEBP · modern", value := "image/webp", extension := "webp",
    lossless := false },
  { label := "AVIF · experimental", value := "image/avif", extension := "avif",
    lossless := false }]

/-- `type PresetOption` of the image toolkit. -/
structure PresetOption where
  value : String
  label : String
  width : ℤ
  height : ℤ
  maintainAspect : Option Bool
  shape : Option CropShape
deriving DecidableEq, Repr

/-- `PRESET_OPTIONS` of the image toolkit. -/
def PRESET_OPTIONS : List PresetOption := [
  { value := "passport_us", label := "Passport (US) · 600–1200×600–1200",
    width := 600, height := 600, maintainAspect := some true,
    shape := some CropShape.square },
  { value := "passport_sg", label := "Passport (SG) · 400×514",
    width := 400, height := 514, maintainAspect := some true, shape := none },
  { value := "avatar_instagram",
    label := "Instagram Profile · 320×320 (square, larger OK)",
    width := 320, height := 320, maintainAspect := some true,
    shape := some CropShape.square },
  { value := "avatar_facebook", label := "Facebook Profile · ≥170×170 (square)",
    width := 400, height := 400, maintainAspect := some true,
    shape := some CropShape.square },
  { value := "avatar_linkedin", label := "LinkedIn Profile · ≥400×400 (square)",
    width := 400, height := 400, maintainAspect := some true,
    shape := some CropShape.square },
  { value := "avatar_twitter", label := "Twitter/X Profile · 400×400",
    width := 400, height := 400, maintainAspect := some true,
    shape := some CropShape.square },
  { value := "avatar_github", label := "GitHub Avatar · 500×500",
    width := 500, height := 500, maintainAspect := some true,
    shape := some CropShape.square },
  { value := "avatar_tiktok", label := "TikTok Profile · ≥200×200 (square)",
    width := 200, height := 200, maintainAspect := some true,
    shape := some CropShape.square }]

/-- The mutable component state of the image toolkit script.  Object URLs
are numeric identifiers handed out by the `nextUrl` counter; `liveUrls`
lists the created-and-not-yet-revoked ones.  The cropper instance is
tracked as a liveness flag. -/
structure ToolkitState where
  file : Option FileRec
  objectUrl : Option ℕ
  resultUrl : Option ℕ
  resultSize : ℕ
  lastBlob : Option BlobRec
  lastDownloadName : Option String
  processing : Bool
  statusMessage : String
  errorMessage : String
  cropper : Bool
  originalWidth : ℤ
  originalHeight : ℤ
  aspectRatio : ℚ
  selectedFormatValue : String
  quality : ℚ
  maintainAspect : Bool
  keepAspectInResize : Bool
  lastChanged : Option Changed
  targetWidth : Option ℤ
  targetHeight : Option ℤ
  smoothing : String
  addPrivateSuffix : Bool
  mode : Mode
  cropShape : CropShape
  selectedPresetValue : String
  nextUrl : ℕ
  liveUrls : List ℕ
deriving DecidableEq

/-- JS truthiness of a nullable number: `null`/`undefined` and `0` are
falsy, every other number truthy. -/
def truthyI : Option ℤ → Bool
  | none => false
  | some x => x ≠ 0

/-- The numeric value behind a truthy nullable number. -/
def jsVal (o : Option ℤ) : ℤ := o.getD 0

/-- `selectedFormat`: the reactive
`FORMAT_OPTIONS.find((option) => option.value === selectedFormatValue) ?? FORMAT_OPTIONS[0]`. -/
def selectedFormat (s : ToolkitState) : FormatOption :=
  (FORMAT_OPTIONS.find? (fun o => o.value = s.selectedFormatValue)).getD
    (FORMAT_OPTIONS.headI)

/-- `alignTargetDimensionsToAspect(changed?)`: crop-mode aspect
re-alignment.  With both dimensions truthy only the ratio is updated; with
one dimension cleared the other is recomputed from `aspectRatio` —
`Math.max(1, Math.round(...))`, with no upper clamp. -/
def alignTargetDimensionsToAspect (s : ToolkitState) (changed : Option Changed) :
    ToolkitState :=
  if ¬(s.mode = Mode.crop) ∨ s.maintainAspect = false then s
  else if truthyI s.targetWidth ∧ truthyI s.targetHeight then
    let nextRatio : ℚ := (jsVal s.targetWidth : ℚ) / (jsVal s.targetHeight : ℚ)
    if 0 < nextRatio then { s with aspectRatio := nextRatio } else s
  else if changed = some Changed.width ∧ truthyI s.targetWidth ∧
      s.aspectRatio ≠ 0 then
    { s with
        targetHeight := some (max 1 (round ((jsVal s.targetWidth : ℚ) / s.aspectRatio))) }
  else if changed = some Changed.height ∧ truthyI s.targetHeight ∧
      s.aspectRatio ≠ 0 then
    { s with
        targetWidth := some (max 1 (round ((jsVal s.targetHeight : ℚ) * s.aspectRatio))) }
  else s

/-- The main branch of `alignResizeDimensionsToAspect` on the
`(targetWidth, targetHeight)` pair, with `r` the source ratio
`srcW / srcH`. -/
def resizeMainPair (r : ℚ) (changed : Option Changed) (tw th : Option ℤ) :
    Option ℤ × Option ℤ :=
  if truthyI tw ∧ ¬ truthyI th = true then
    (tw, some (max 1 (round ((jsVal tw : ℚ) / r))))
  else if ¬ truthyI tw = true ∧ truthyI th then
    (some (max 1 (round ((jsVal th : ℚ) * r))), th)
  else if truthyI tw ∧ truthyI th then
    if changed = some Changed.height then
      (some (max 1 (round ((jsVal th : ℚ) * r))), th)
    else (tw, some (max 1 (round ((jsVal tw : ℚ) / r))))
  else (tw, th)

/-- The width half of the trailing `// clamp to MAX_DIMENSION` block of
`alignResizeDimensionsToAspect`:
`if (targetWidth && targetWidth > MAX_DIMENSION)` cap the width and rewrite
the height proportionally. -/
def resizeClampW (r : ℚ) (p : Option ℤ × Option ℤ) : Option ℤ × Option ℤ :=
  if truthyI p.1 ∧ MAX_DIMENSION < jsVal p.1 then
    (some MAX_DIMENSION, some (max 1 (round ((MAX_DIMENSION : ℚ) / r))))
  else p

/-- The height half of the same clamp block, run after the width half. -/
def resizeClampH (r : ℚ) (p : Option ℤ × Option ℤ) : Option ℤ × Option ℤ :=
  if truthyI p.2 ∧ MAX_DIMENSION < jsVal p.2 then
    (some (max 1 (round ((MAX_DIMENSION : ℚ) * r))), some MAX_DIMENSION)
  else p

/-- The whole `// clamp to MAX_DIMENSION` block: width clamp, then height
clamp. -/
def resizeClampPair (r : ℚ) (p : Option ℤ × Option ℤ) : Option ℤ × Option ℤ :=
  resizeClampH r (resizeClampW r p)

/-- `alignResizeDimensionsToAspect(changed?)`: resize-mode aspect
re-alignment with `srcW = originalWidth || 1`, `srcH = originalHeight || 1`,
followed by the proportional clamp to `MAX_DIMENSION`. -/
def alignResizeDimensionsToAspect (s : ToolkitState) (changed : Option Changed) :
    ToolkitState :=
  if ¬(s.mode = Mode.resize) ∨ s.keepAspectInResize = false then s
  else
    let srcW : ℤ := if s.originalWidth ≠ 0 then s.originalWidth else 1
    let srcH : ℤ := if s.originalHeight ≠ 0 then s.originalHeight else 1
    let srcRatio : ℚ := (srcW : ℚ) / (srcH : ℚ)
    let p := resizeClampPair srcRatio
      (resizeMainPair srcRatio changed s.targetWidth s.targetHeight)
    { s with targetWidth := p.1, targetHeight := p.2 }

/-- `handleTargetWidthInput(event)`: round the field value, keep it only if
finite and positive (clamped to `MAX_DIMENSION`), mark the preset custom,
remember the edited side, then re-align for the current mode.  A `NaN`
`valueAsNumber` (empty field) is the `none` input. -/
def handleTargetWidthInput (s : ToolkitState) (valueAsNumber : Option ℚ) :
    ToolkitState :=
  let value : Option ℤ := valueAsNumber.map (fun q => round q)
  let nextValue : Option ℤ :=
    match value with
    | some v => if 0 < v then some (min v MAX_DIMENSION) else none
    | none => none
  let s1 := { s with targetWidth := nextValue,
                     selectedPresetValue := CUSTOM_PRESET_VALUE,
                     lastChanged := some Changed.width }
  let s2 := if s1.mode = Mode.crop then
      alignTargetDimensionsToAspect s1 (some Changed.width)
    else s1
  if s2.mode = Mode.resize ∧ s2.keepAspectInResize = true then
    alignResizeDimensionsToAspect s2 (some Changed.width)
  else s2

/-- `handleTargetHeightInput(event)`, the mirror image of
`handleTargetWidthInput`. -/
def handleTargetHeightInput (s : ToolkitState) (valueAsNumber : Option ℚ) :
    ToolkitState :=
  let value : Option ℤ := valueAsNumber.map (fun q => round q)
  let nextValue : Option ℤ :=
    match value with
    | some v => if 0 < v then some (min v MAX_DIMENSION) else none
    | none => none
  let s1 := { s with targetHeight := nextValue,
                     selectedPresetValue := CUSTOM_PRESET_VALUE,
                     lastChanged := some Changed.height }
  let s2 := if s1.mode = Mode.crop then
      alignTargetDimensionsToAspect s1 (some Changed.height)
    else s1
  if s2.mode = Mode.resize ∧ s2.keepAspectInResize = true then
    alignResizeDimensionsToAspect s2 (some Changed.height)
  else s2

/-- `applyCropShape(shape)`: a circle forces a square aspect with the
smaller candidate dimension; in crop mode with kept aspect the target
dimensions are then re-aligned (the cropper calls do not touch the
dimension state). -/
def applyCropShape (s : ToolkitState) (shape : CropShape) : ToolkitState :=
  let s1 := { s with cropShape := shape }
  let s2 :=
    if shape = CropShape.circle then
      let widthCandidate : ℤ := s1.targetWidth.getD s1.originalWidth
      let heightCandidate : ℤ := s1.targetHeight.getD s1.originalHeight
      let size : ℤ := max 1 (round ((min widthCandidate heightCandidate : ℤ) : ℚ))
      { s1 with maintainAspect := true, targetWidth := some size,
                targetHeight := some size, aspectRatio := 1 }
    else s1
  if s2.mode = Mode.crop then
    if s2.maintainAspect = true then alignTargetDimensionsToAspect s2 none
    else s2
  else s2

/-- The head of `applyPresetDimensions`:
`let w = Math.max(1, Math.round(preset.width))` (likewise the height) and
the proportional `Math.floor` clamp to `MAX_DIMENSION`. -/
def presetClampPair (presetWidth presetHeight : ℤ) : ℤ × ℤ :=
  let w0 : ℤ := max 1 (round ((presetWidth : ℚ)))
  let h0 : ℤ := max 1 (round ((presetHeight : ℚ)))
  if MAX_DIMENSION < w0 ∨ MAX_DIMENSION < h0 then
    let scale : ℚ :=
      min ((MAX_DIMENSION : ℚ) / (w0 : ℚ)) ((MAX_DIMENSION : ℚ) / (h0 : ℚ))
    (max 1 ⌊(w0 : ℚ) * scale⌋, max 1 ⌊(h0 : ℚ) * scale⌋)
  else (w0, h0)

/-- The two trailing re-alignment blocks of `applyPresetDimensions`:
`if (mode === 'resize' && keepAspectInResize) alignResizeDimensionsToAspect()`
followed by `if (mode === 'crop') { if (maintainAspect)
alignTargetDimensionsToAspect(); ... }` (the cropper calls do not touch the
dimension state). -/
def modeRealign (s : ToolkitState) : ToolkitState :=
  let s5 :=
    if s.mode = Mode.resize ∧ s.keepAspectInResize = true then
      alignResizeDimensionsToAspect s none
    else s
  if s5.mode = Mode.crop then
    if s5.maintainAspect = true then alignTargetDimensionsToAspect s5 none
    else s5
  else s5

/-- `applyPresetDimensions(preset)`: proportionally clamp the preset to
`MAX_DIMENSION` (via `Math.floor`), install the dimensions and ratio,
apply the passport/shape branches, and re-align for the current mode. -/
def applyPresetDimensions (s : ToolkitState) (preset : PresetOption) :
    ToolkitState :=
  let s0 := { s with selectedPresetValue := preset.value }
  let wh : ℤ × ℤ := presetClampPair preset.width preset.height
  let s1 := { s0 with targetWidth := some wh.1, targetHeight := some wh.2 }
  let presetRatio : ℚ := (wh.1 : ℚ) / (wh.2 : ℚ)
  let s2 := if 0 < presetRatio then { s1 with aspectRatio := presetRatio } else s1
  let s3 :=
    if preset.value.startsWith "passport_" then
      { s2 with selectedFormatValue := "image/jpeg", mode := Mode.crop,
                maintainAspect := true, cropShape := CropShape.square }
    else
      let s2b := { s2 with maintainAspect := preset.maintainAspect.getD true }
      if preset.shape = none ∧ s2b.cropShape = CropShape.circle then
        applyCropShape s2b CropShape.square
      else s2b
  let s4 :=
    match preset.shape with
    | some sh => applyCropShape s3 sh
    | none => s3
  modeRealign s4

/-- A nullable dimension that is unset or an integer in
`[1, MAX_DIMENSION]` — the bound claimed by the spec. -/
def DimOk (o : Option ℤ) : Prop :=
  o = none ∨ ∃ x : ℤ, o = some x ∧ 1 ≤ x ∧ x ≤ MAX_DIMENSION

/-- A nullable dimension that is unset or a positive integer. -/
def DimPos (o : Option ℤ) : Prop :=
  o = none ∨ ∃ x : ℤ, o = some x ∧ 1 ≤ x



theorem roundq_le_of_lt_half (x : ℚ) (n : ℤ) (h : x < (n : ℚ) + 1/2) :
    round x ≤ n := by
  have h1 : ⌊x + 1/2⌋ < n + 1 := by
    rw [Int.floor_lt]
    push_cast
    linarith
  rw [round_eq]
  omega

theorem half_le_of_lt_round (x : ℚ) (n : ℤ) (h : n < round x) :
    (n : ℚ) + 1/2 ≤ x := by
  rw [round_eq] at h
  have h1 : n + 1 ≤ ⌊x + 1/2⌋ := by omega
  have h2 := Int.le_floor.mp h1
  push_cast at h2
  linarith

theorem lt_half_of_roundq_le (x : ℚ) (n : ℤ) (h : round x ≤ n) :
    x < (n : ℚ) + 1/2 := by
  by_contra hc
  push_neg at hc
  have : n < round x := by
    rw [round_eq, Int.lt_iff_add_one_le, Int.le_floor]
    push_cast
    linarith
  omega

theorem dimOk_none : DimOk none := Or.inl rfl

theorem dimOk_some {a : ℤ} (h1 : 1 ≤ a) (h2 : a ≤ MAX_DIMENSION) :
    DimOk (some a) := Or.inr ⟨a, rfl, h1, h2⟩

theorem MAX_DIMENSION_one_le : (1 : ℤ) ≤ MAX_DIMENSION := by
  norm_num [MAX_DIMENSION]

/-- If the height clamp fires after the width clamp rewrote the pair from a
width `w ≤ MAX_DIMENSION`, the rewritten width stays within the bound. -/
theorem roundMulR_le_of_div (r : ℚ) (hr : 0 < r) (w : ℤ)
    (hwM : w ≤ MAX_DIMENSION)
    (hgt : MAX_DIMENSION < round ((w : ℚ) / r)) :
    round ((MAX_DIMENSION : ℚ) * r) ≤ MAX_DIMENSION := by
  have h1 : ((MAX_DIMENSION : ℤ) : ℚ) + 1/2 ≤ (w : ℚ) / r :=
    half_le_of_lt_round _ _ hgt
  have h2 : (((MAX_DIMENSION : ℤ) : ℚ) + 1/2) * r ≤ (w : ℚ) :=
    (le_div_iff₀ hr).mp h1
  have h3 : ((MAX_DIMENSION : ℤ) : ℚ) * r ≤ (((MAX_DIMENSION : ℤ) : ℚ) + 1/2) * r :=
    mul_le_mul_of_nonneg_right (by linarith) hr.le
  have h4 : ((w : ℤ) : ℚ) ≤ ((MAX_DIMENSION : ℤ) : ℚ) := by exact_mod_cast hwM
  apply roundq_le_of_lt_half
  linarith

/-- If the height clamp fires on an untouched height `h > MAX_DIMENSION`
while the computed width `round(h*r)` already fit the bound, the rewritten
width stays within the bound. -/
theorem roundMulR_le_of_big_h (r : ℚ) (hr : 0 < r) (h : ℤ)
    (hMh : MAX_DIMENSION < h)
    (hle : round ((h : ℚ) * r) ≤ MAX_DIMENSION) :
    round ((MAX_DIMENSION : ℚ) * r) ≤ MAX_DIMENSION := by
  have h1 : (h : ℚ) * r < ((MAX_DIMENSION : ℤ) : ℚ) + 1/2 :=
    lt_half_of_roundq_le _ _ hle
  have h2 : ((MAX_DIMENSION : ℤ) : ℚ) < (h : ℚ) := by exact_mod_cast hMh
  have h3 : ((MAX_DIMENSION : ℤ) : ℚ) * r < (h : ℚ) * r :=
    mul_lt_mul_of_pos_right h2 hr
  apply roundq_le_of_lt_half
  linarith

/-- Clamping the width-driven pair `(w, max 1 (round (w / r)))` lands both
components in `[1, MAX_DIMENSION]`. -/
theorem resizeClampPair_ok_w (r : ℚ) (hr : 0 < r) (w : ℤ) (hw1 : 1 ≤ w) :
    DimOk (resizeClampPair r (some w, some (max 1 (round ((w : ℚ) / r))))).1 ∧
    DimOk (resizeClampPair r (some w, some (max 1 (round ((w : ℚ) / r))))).2 := by
  have hM := MAX_DIMENSION_one_le
  rw [resizeClampPair, resizeClampW]
  by_cases hcw : MAX_DIMENSION < w
  · rw [if_pos ⟨by simp [truthyI]; omega, by simp [jsVal]; omega⟩]
    rw [resizeClampH]
    by_cases hch : MAX_DIMENSION < round ((MAX_DIMENSION : ℚ) / r)
    · rw [if_pos ⟨by simp [truthyI]; omega, by simp [jsVal]; omega⟩]
      have hb := roundMulR_le_of_div r hr MAX_DIMENSION le_rfl hch
      exact ⟨dimOk_some (le_max_left 1 _) (max_le hM hb),
        dimOk_some hM le_rfl⟩
    · rw [if_neg ?_]
      · exact ⟨dimOk_some hM le_rfl,
          dimOk_some (le_max_left 1 _) (by simp [jsVal]; omega)⟩
      · rintro ⟨-, hcon⟩
        simp [jsVal] at hcon
        omega
  · rw [if_neg ?_]
    swap
    · rintro ⟨-, hcon⟩
      simp [jsVal] at hcon
      omega
    rw [resizeClampH]
    by_cases hch : MAX_DIMENSION < round ((w : ℚ) / r)
    · rw [if_pos ⟨by simp [truthyI]; omega, by simp [jsVal]; omega⟩]
      have hb := roundMulR_le_of_div r hr w (by omega) hch
      exact ⟨dimOk_some (le_max_left 1 _) (max_le hM hb),
        dimOk_some hM le_rfl⟩
    · rw [if_neg ?_]
      · exact ⟨dimOk_some hw1 (by omega),
          dimOk_some (le_max_left 1 _) (by simp [jsVal]; omega)⟩
      · rintro ⟨-, hcon⟩
        simp [jsVal] at hcon
        omega

/-- Clamping the height-driven pair `(max 1 (round (h * r)), h)` lands both
components in `[1, MAX_DIMENSION]`. -/
theorem resizeClampPair_ok_h (r : ℚ) (hr : 0 < r) (h : ℤ) (hh1 : 1 ≤ h) :
    DimOk (resizeClampPair r (some (max 1 (round ((h : ℚ) * r))), some h)).1 ∧
    DimOk (resizeClampPair r (some (max 1 (round ((h : ℚ) * r))), some h)).2 := by
  have hM := MAX_DIMENSION_one_le
  rw [resizeClampPair, resizeClampW]
  by_cases hcw : MAX_DIMENSION < round ((h : ℚ) * r)
  · rw [if_pos ⟨by simp [truthyI]; omega, by simp [jsVal]; omega⟩]
    rw [resizeClampH]
    by_cases hch : MAX_DIMENSION < round ((MAX_DIMENSION : ℚ) / r)
    · rw [if_pos ⟨by simp [truthyI]; omega, by simp [jsVal]; omega⟩]
      have hb := roundMulR_le_of_div r hr MAX_DIMENSION le_rfl hch
      exact ⟨dimOk_some (le_max_left 1 _) (max_le hM hb),
        dimOk_some hM le_rfl⟩
    · rw [if_neg ?_]
      · exact ⟨dimOk_some hM le_rfl,
          dimOk_some (le_max_left 1 _) (by simp [jsVal]; omega)⟩
      · rintro ⟨-, hcon⟩
        simp [jsVal] at hcon
        omega
  · rw [if_neg ?_]
    swap
    · rintro ⟨-, hcon⟩
      simp [jsVal] at hcon
      omega
    rw [resizeClampH]
    by_cases hch : MAX_DIMENSION < h
    · rw [if_pos ⟨by simp [truthyI]; omega, by simp [jsVal]; omega⟩]
      have hb := roundMulR_le_of_big_h r hr h hch (by omega)
      exact ⟨dimOk_some (le_max_left 1 _) (max_le hM hb),
        dimOk_some hM le_rfl⟩
    · rw [if_neg ?_]
      · exact ⟨dimOk_some (le_max_left 1 _) (by omega),
          dimOk_some hh1 (by omega)⟩
      · rintro ⟨-, hcon⟩
        simp [jsVal] at hcon
        omega

/-- The main branch of the resize alignment always produces a width-driven
pair, a height-driven pair, or leaves two unset dimensions. -/
theorem resizeMainPair_cases (r : ℚ) (changed : Option Changed)
    (tw th : Option ℤ) (hw : DimPos tw) (hh : DimPos th) :
    (∃ w : ℤ, 1 ≤ w ∧
      resizeMainPair r changed tw th
        = (some w, some (max 1 (round ((w : ℚ) / r))))) ∨
    (∃ h : ℤ, 1 ≤ h ∧
      resizeMainPair r changed tw th
        = (some (max 1 (round ((h : ℚ) * r))), some h)) ∨
    resizeMainPair r changed tw th = (none, none) := by
  rcases hw with rfl | ⟨w, rfl, hw1⟩ <;> rcases hh with rfl | ⟨h, rfl, hh1⟩
  · right; right
    rw [resizeMainPair]
    rw [if_neg (by simp [truthyI]), if_neg (by simp [truthyI]),
      if_neg (by simp [truthyI])]
  · right; left
    refine ⟨h, hh1, ?_⟩
    rw [resizeMainPair]
    rw [if_neg (by simp [truthyI]),
      if_pos ⟨by simp [truthyI], by simp [truthyI]; omega⟩]
    simp [jsVal]
  · left
    refine ⟨w, hw1, ?_⟩
    rw [resizeMainPair]
    rw [if_pos ⟨by simp [truthyI]; omega, by simp [truthyI]⟩]
    simp [jsVal]
  · rw [resizeMainPair]
    rw [if_neg (by simp [truthyI]; omega),
      if_neg (by simp [truthyI]; omega),
      if_pos ⟨by simp [truthyI]; omega, by simp [truthyI]; omega⟩]
    by_cases hc : changed = some Changed.height
    · right; left
      refine ⟨h, hh1, ?_⟩
      rw [if_pos hc]
      simp [jsVal]
    · left
      refine ⟨w, hw1, ?_⟩
      rw [if_neg hc]
      simp [jsVal]

/-- Main branch plus clamp of the resize alignment: well-formed inputs come
out unset or inside `[1, MAX_DIMENSION]`. -/
theorem resizePair_ok (r : ℚ) (hr : 0 < r) (changed : Option Changed)
    (tw th : Option ℤ) (hw : DimPos tw) (hh : DimPos th) :
    DimOk (resizeClampPair r (resizeMainPair r changed tw th)).1 ∧
    DimOk (resizeClampPair r (resizeMainPair r changed tw th)).2 := by
  rcases resizeMainPair_cases r changed tw th hw hh with
    ⟨w, hw1, heq⟩ | ⟨h, hh1, heq⟩ | heq
  · rw [heq]
    exact resizeClampPair_ok_w r hr w hw1
  · rw [heq]
    exact resizeClampPair_ok_h r hr h hh1
  · rw [heq]
    rw [resizeClampPair, resizeClampW, if_neg (by simp [truthyI]),
      resizeClampH, if_neg (by simp [truthyI])]
    exact ⟨dimOk_none, dimOk_none⟩

/-- The resize-mode re-alignment keeps both dimensions unset-or-in-bounds. -/
theorem alignResize_dimOk (s : ToolkitState) (changed : Option Changed)
    (hmode : s.mode = Mode.resize) (hkeep : s.keepAspectInResize = true)
    (hw : DimPos s.targetWidth) (hh : DimPos s.targetHeight)
    (how : 0 ≤ s.originalWidth) (hoh : 0 ≤ s.originalHeight) :
    DimOk ((alignResizeDimensionsToAspect s changed).targetWidth) ∧
    DimOk ((alignResizeDimensionsToAspect s changed).targetHeight) := by
  rw [alignResizeDimensionsToAspect,
    if_neg (by rw [hmode, hkeep]; simp)]
  have hsw : (1 : ℤ) ≤ (if s.originalWidth ≠ 0 then s.originalWidth else 1) := by
    split <;> omega
  have hsh : (1 : ℤ) ≤ (if s.originalHeight ≠ 0 then s.originalHeight else 1) := by
    split <;> omega
  have hr : (0 : ℚ) <
      ((if s.originalWidth ≠ 0 then s.originalWidth else 1 : ℤ) : ℚ) /
        ((if s.originalHeight ≠ 0 then s.originalHeight else 1 : ℤ) : ℚ) := by
    apply div_pos
    · exact_mod_cast lt_of_lt_of_le zero_lt_one hsw
    · exact_mod_cast lt_of_lt_of_le zero_lt_one hsh
  exact resizePair_ok _ hr changed s.targetWidth s.targetHeight hw hh



theorem dimPos_of_dimOk {o : Option ℤ} (h : DimOk o) : DimPos o := by
  rcases h with rfl | ⟨x, rfl, h1, _⟩
  · exact Or.inl rfl
  · exact Or.inr ⟨x, rfl, h1⟩

theorem alignTarget_mode_eq (s : ToolkitState) (changed : Option Changed) :
    (alignTargetDimensionsToAspect s changed).mode = s.mode := by
  simp only [alignTargetDimensionsToAspect]
  split_ifs <;> rfl

theorem alignTarget_keep_eq (s : ToolkitState) (changed : Option Changed) :
    (alignTargetDimensionsToAspect s changed).keepAspectInResize
      = s.keepAspectInResize := by
  simp only [alignTargetDimensionsToAspect]
  split_ifs <;> rfl

theorem alignTarget_origW_eq (s : ToolkitState) (changed : Option Changed) :
    (alignTargetDimensionsToAspect s changed).originalWidth
      = s.originalWidth := by
  simp only [alignTargetDimensionsToAspect]
  split_ifs <;> rfl

theorem alignTarget_origH_eq (s : ToolkitState) (changed : Option Changed) :
    (alignTargetDimensionsToAspect s changed).originalHeight
      = s.originalHeight := by
  simp only [alignTargetDimensionsToAspect]
  split_ifs <;> rfl

theorem alignTarget_maintain_eq (s : ToolkitState) (changed : Option Changed) :
    (alignTargetDimensionsToAspect s changed).maintainAspect
      = s.maintainAspect := by
  simp only [alignTargetDimensionsToAspect]
  split_ifs <;> rfl

/-- `alignTargetDimensionsToAspect('width')` never writes `targetWidth`:
the width-recompute branch requires `changed === 'height'`. -/
theorem alignTarget_width_preserved (s : ToolkitState) :
    (alignTargetDimensionsToAspect s (some Changed.width)).targetWidth
      = s.targetWidth := by
  simp only [alignTargetDimensionsToAspect]
  split_ifs <;> first
    | rfl
    | (exfalso; simp_all)

/-- `alignTargetDimensionsToAspect('height')` never writes `targetHeight`. -/
theorem alignTarget_height_preserved (s : ToolkitState) :
    (alignTargetDimensionsToAspect s (some Changed.height)).targetHeight
      = s.targetHeight := by
  simp only [alignTargetDimensionsToAspect]
  split_ifs <;> first
    | rfl
    | (exfalso; simp_all)

/-- With no `changed` argument the crop-mode re-alignment can only update
the ratio, never a dimension. -/
theorem alignTarget_none_targets (s : ToolkitState) :
    (alignTargetDimensionsToAspect s none).targetWidth = s.targetWidth ∧
    (alignTargetDimensionsToAspect s none).targetHeight = s.targetHeight := by
  simp only [alignTargetDimensionsToAspect]
  split_ifs <;> first
    | exact ⟨rfl, rfl⟩
    | (exfalso; simp_all)

theorem alignResize_mode_eq (s : ToolkitState) (changed : Option Changed) :
    (alignResizeDimensionsToAspect s changed).mode = s.mode := by
  simp only [alignResizeDimensionsToAspect]
  split_ifs <;> rfl

theorem alignResize_keep_eq (s : ToolkitState) (changed : Option Changed) :
    (alignResizeDimensionsToAspect s changed).keepAspectInResize
      = s.keepAspectInResize := by
  simp only [alignResizeDimensionsToAspect]
  split_ifs <;> rfl

theorem alignResize_maintain_eq (s : ToolkitState) (changed : Option Changed) :
    (alignResizeDimensionsToAspect s changed).maintainAspect
      = s.maintainAspect := by
  simp only [alignResizeDimensionsToAspect]
  split_ifs <;> rfl

theorem alignResize_origW_eq (s : ToolkitState) (changed : Option Changed) :
    (alignResizeDimensionsToAspect s changed).originalWidth
      = s.originalWidth := by
  simp only [alignResizeDimensionsToAspect]
  split_ifs <;> rfl

theorem alignResize_origH_eq (s : ToolkitState) (changed : Option Changed) :
    (alignResizeDimensionsToAspect s changed).originalHeight
      = s.originalHeight := by
  simp only [alignResizeDimensionsToAspect]
  split_ifs <;> rfl

theorem nextValue_dimOk (input : Option ℚ) :
    DimOk (match input.map (fun q => round q) with
           | some v => if 0 < v then some (min v MAX_DIMENSION) else none
           | none => none) := by
  cases input with
  | none => exact dimOk_none
  | some q =>
      show DimOk (if 0 < round q then some (min (round q) MAX_DIMENSION) else none)
      by_cases h : 0 < round q
      · rw [if_pos h]
        exact dimOk_some (le_min (by omega) MAX_DIMENSION_one_le)
          (min_le_right _ _)
      · rw [if_neg h]
        exact dimOk_none

/-- The width input handler leaves the edited field unset or in
`[1, MAX_DIMENSION]`, and in resize mode with kept aspect the paired field
too. -/
theorem handleTargetWidthInput_dimOk (s : ToolkitState) (input : Option ℚ)
    (hh : DimPos s.targetHeight) (how : 0 ≤ s.originalWidth)
    (hoh : 0 ≤ s.originalHeight) :
    DimOk ((handleTargetWidthInput s input).targetWidth) ∧
    (s.mode = Mode.resize ∧ s.keepAspectInResize = true →
      DimOk ((handleTargetWidthInput s input).targetHeight)) := by
  have hnv := nextValue_dimOk input
  simp only [handleTargetWidthInput]
  split_ifs with h1 h2 h3
  · exfalso
    rw [alignTarget_mode_eq] at h2
    simp only at h1 h2
    rw [h1] at h2
    simp at h2
  · constructor
    · rw [alignTarget_width_preserved]
      exact hnv
    · rintro ⟨hcon, -⟩
      simp only at h1
      rw [hcon] at h1
      simp at h1
  · have hal := alignResize_dimOk _ (some Changed.width) h3.1 h3.2
      (dimPos_of_dimOk hnv) hh how hoh
    exact ⟨hal.1, fun _ => hal.2⟩
  · constructor
    · exact hnv
    · intro hcon
      exact absurd ⟨hcon.1, hcon.2⟩ h3

/-- The height input handler, mirror of `handleTargetWidthInput_dimOk`. -/
theorem handleTargetHeightInput_dimOk (s : ToolkitState) (input : Option ℚ)
    (hw : DimPos s.targetWidth) (how : 0 ≤ s.originalWidth)
    (hoh : 0 ≤ s.originalHeight) :
    DimOk ((handleTargetHeightInput s input).targetHeight) ∧
    (s.mode = Mode.resize ∧ s.keepAspectInResize = true →
      DimOk ((handleTargetHeightInput s input).targetWidth)) := by
  have hnv := nextValue_dimOk input
  simp only [handleTargetHeightInput]
  split_ifs with h1 h2 h3
  · exfalso
    rw [alignTarget_mode_eq] at h2
    simp only at h1 h2
    rw [h1] at h2
    simp at h2
  · constructor
    · rw [alignTarget_height_preserved]
      exact hnv
    · rintro ⟨hcon, -⟩
      simp only at h1
      rw [hcon] at h1
      simp at h1
  · have hal := alignResize_dimOk _ (some Changed.height) h3.1 h3.2
      hw (dimPos_of_dimOk hnv) how hoh
    exact ⟨hal.2, fun _ => hal.1⟩
  · constructor
    · exact hnv
    · intro hcon
      exact absurd ⟨hcon.1, hcon.2⟩ h3


theorem modeRealign_ok (t : ToolkitState)
    (hw : DimOk t.targetWidth) (hh : DimOk t.targetHeight)
    (how : 0 ≤ t.originalWidth) (hoh : 0 ≤ t.originalHeight) :
    DimOk ((modeRealign t).targetWidth) ∧
    DimOk ((modeRealign t).targetHeight) := by
  simp only [modeRealign]
  split_ifs with h1 h2 h3
  · rw [(alignTarget_none_targets _).1, (alignTarget_none_targets _).2]
    exact alignResize_dimOk t none h1.1 h1.2 (dimPos_of_dimOk hw)
      (dimPos_of_dimOk hh) how hoh
  · exact alignResize_dimOk t none h1.1 h1.2 (dimPos_of_dimOk hw)
      (dimPos_of_dimOk hh) how hoh
  · exact alignResize_dimOk t none h1.1 h1.2 (dimPos_of_dimOk hw)
      (dimPos_of_dimOk hh) how hoh
  · rw [(alignTarget_none_targets _).1, (alignTarget_none_targets _).2]
    exact ⟨hw, hh⟩
  · exact ⟨hw, hh⟩
  · exact ⟨hw, hh⟩

theorem applyCropShape_mode_eq (s : ToolkitState) (shape : CropShape) :
    (applyCropShape s shape).mode = s.mode := by
  simp only [applyCropShape]
  split_ifs <;> simp [alignTarget_mode_eq]

theorem applyCropShape_keep_eq (s : ToolkitState) (shape : CropShape) :
    (applyCropShape s shape).keepAspectInResize = s.keepAspectInResize := by
  simp only [applyCropShape]
  split_ifs <;> simp [alignTarget_keep_eq]

theorem applyCropShape_origW_eq (s : ToolkitState) (shape : CropShape) :
    (applyCropShape s shape).originalWidth = s.originalWidth := by
  simp only [applyCropShape]
  split_ifs <;> simp [alignTarget_origW_eq]

theorem applyCropShape_origH_eq (s : ToolkitState) (shape : CropShape) :
    (applyCropShape s shape).originalHeight = s.originalHeight := by
  simp only [applyCropShape]
  split_ifs <;> simp [alignTarget_origH_eq]

/-- With both dimensions set inside the bound, `applyCropShape` keeps them
inside the bound (a circle snaps both to the smaller one). -/
theorem applyCropShape_ok (s : ToolkitState) (shape : CropShape)
    (a b : ℤ) (hwa : s.targetWidth = some a) (hhb : s.targetHeight = some b)
    (ha1 : 1 ≤ a) (haM : a ≤ MAX_DIMENSION)
    (hb1 : 1 ≤ b) (hbM : b ≤ MAX_DIMENSION) :
    DimOk ((applyCropShape s shape).targetWidth) ∧
    DimOk ((applyCropShape s shape).targetHeight) := by
  have hM := MAX_DIMENSION_one_le
  simp only [applyCropShape, hwa, hhb, Option.getD_some]
  split_ifs <;>
    first
      | (rw [(alignTarget_none_targets _).1, (alignTarget_none_targets _).2]
         refine ⟨?_, ?_⟩ <;>
           first
             | (exact dimOk_some (le_max_left _ _)
                 (by rw [round_intCast]; exact max_le hM (le_trans (min_le_left a b) haM)))
             | exact dimOk_some ha1 haM
             | exact dimOk_some hb1 hbM)
      | (refine ⟨?_, ?_⟩ <;>
           first
             | (exact dimOk_some (le_max_left _ _)
                 (by rw [round_intCast]; exact max_le hM (le_trans (min_le_left a b) haM)))
             | exact dimOk_some ha1 haM
             | exact dimOk_some hb1 hbM)



theorem presetClampPair_bounds (pw ph : ℤ) :
    (1 ≤ (presetClampPair pw ph).1 ∧ (presetClampPair pw ph).1 ≤ MAX_DIMENSION) ∧
    (1 ≤ (presetClampPair pw ph).2 ∧ (presetClampPair pw ph).2 ≤ MAX_DIMENSION) := by
  have hM := MAX_DIMENSION_one_le
  simp only [presetClampPair]
  split_ifs with hc
  · have hw0 : (1 : ℤ) ≤ max 1 (round ((pw : ℚ))) := le_max_left _ _
    have hh0 : (1 : ℤ) ≤ max 1 (round ((ph : ℚ))) := le_max_left _ _
    have hfw : ((max 1 (round ((pw : ℚ))) : ℤ) : ℚ) *
        min ((MAX_DIMENSION : ℚ) / ((max 1 (round ((pw : ℚ))) : ℤ) : ℚ))
            ((MAX_DIMENSION : ℚ) / ((max 1 (round ((ph : ℚ))) : ℤ) : ℚ))
        ≤ ((MAX_DIMENSION : ℤ) : ℚ) := by
      have h1 : ((max 1 (round ((pw : ℚ))) : ℤ) : ℚ) *
          min ((MAX_DIMENSION : ℚ) / ((max 1 (round ((pw : ℚ))) : ℤ) : ℚ))
              ((MAX_DIMENSION : ℚ) / ((max 1 (round ((ph : ℚ))) : ℤ) : ℚ))
          ≤ ((max 1 (round ((pw : ℚ))) : ℤ) : ℚ) *
            ((MAX_DIMENSION : ℚ) / ((max 1 (round ((pw : ℚ))) : ℤ) : ℚ)) := by
        apply mul_le_mul_of_nonneg_left (min_le_left _ _)
        exact_mod_cast le_trans zero_le_one hw0
      have h2 : ((max 1 (round ((pw : ℚ))) : ℤ) : ℚ) ≠ 0 := by
        have : (0 : ℤ) < max 1 (round ((pw : ℚ))) := lt_of_lt_of_le zero_lt_one hw0
        exact_mod_cast this.ne'
      rw [mul_div_cancel₀ _ h2] at h1
      exact h1
    have hfh : ((max 1 (round ((ph : ℚ))) : ℤ) : ℚ) *
        min ((MAX_DIMENSION : ℚ) / ((max 1 (round ((pw : ℚ))) : ℤ) : ℚ))
            ((MAX_DIMENSION : ℚ) / ((max 1 (round ((ph : ℚ))) : ℤ) : ℚ))
        ≤ ((MAX_DIMENSION : ℤ) : ℚ) := by
      have h1 : ((max 1 (round ((ph : ℚ))) : ℤ) : ℚ) *
          min ((MAX_DIMENSION : ℚ) / ((max 1 (round ((pw : ℚ))) : ℤ) : ℚ))
              ((MAX_DIMENSION : ℚ) / ((max 1 (round ((ph : ℚ))) : ℤ) : ℚ))
          ≤ ((max 1 (round ((ph : ℚ))) : ℤ) : ℚ) *
            ((MAX_DIMENSION : ℚ) / ((max 1 (round ((ph : ℚ))) : ℤ) : ℚ)) := by
        apply mul_le_mul_of_nonneg_left (min_le_right _ _)
        exact_mod_cast le_trans zero_le_one hh0
      have h2 : ((max 1 (round ((ph : ℚ))) : ℤ) : ℚ) ≠ 0 := by
        have : (0 : ℤ) < max 1 (round ((ph : ℚ))) := lt_of_lt_of_le zero_lt_one hh0
        exact_mod_cast this.ne'
      rw [mul_div_cancel₀ _ h2] at h1
      exact h1
    constructor
    · refine ⟨le_max_left _ _, max_le hM ?_⟩
      have := Int.floor_le_floor hfw
      rwa [Int.floor_intCast] at this
    · refine ⟨le_max_left _ _, max_le hM ?_⟩
      have := Int.floor_le_floor hfh
      rwa [Int.floor_intCast] at this
  · push_neg at hc
    exact ⟨⟨le_max_left _ _, hc.1⟩, ⟨le_max_left _ _, hc.2⟩⟩

/-- Preset application always lands both target dimensions in
`[1, MAX_DIMENSION]`. -/
theorem applyPresetDimensions_dimOk (s : ToolkitState) (preset : PresetOption)
    (how : 0 ≤ s.originalWidth) (hoh : 0 ≤ s.originalHeight) :
    DimOk ((applyPresetDimensions s preset).targetWidth) ∧
    DimOk ((applyPresetDimensions s preset).targetHeight) := by
  have hb := presetClampPair_bounds preset.width preset.height
  simp only [applyPresetDimensions]
  refine modeRealign_ok _ ?_ ?_ ?_ ?_
  · cases hps : preset.shape with
    | none =>
        split_ifs <;> first
          | exact dimOk_some hb.1.1 hb.1.2
          | exact (applyCropShape_ok _ _ _ _ rfl rfl hb.1.1 hb.1.2 hb.2.1 hb.2.2).1
    | some sh =>
        split_ifs <;> first
          | exact (applyCropShape_ok _ _ _ _ rfl rfl hb.1.1 hb.1.2 hb.2.1 hb.2.2).1
          | (exfalso; simp_all)
  · cases hps : preset.shape with
    | none =>
        split_ifs <;> first
          | exact dimOk_some hb.2.1 hb.2.2
          | exact (applyCropShape_ok _ _ _ _ rfl rfl hb.1.1 hb.1.2 hb.2.1 hb.2.2).2
    | some sh =>
        split_ifs <;> first
          | exact (applyCropShape_ok _ _ _ _ rfl rfl hb.1.1 hb.1.2 hb.2.1 hb.2.2).2
          | (exfalso; simp_all)
  · cases hps : preset.shape <;> split_ifs <;> first
      | exact how
      | (simp only [applyCropShape_origW_eq]; exact how)
  · cases hps : preset.shape <;> split_ifs <;> first
      | exact hoh
      | (simp only [applyCropShape_origH_eq]; exact hoh)



theorem truthyI_some (x : ℤ) : truthyI (some x) = true ↔ x ≠ 0 := by
  simp [truthyI]

theorem resizeMainPair_width (r : ℚ) (w : ℤ) (hw : w ≠ 0) (th : Option ℤ) :
    resizeMainPair r (some Changed.width) (some w) th
      = (some w, some (max 1 (round ((w : ℚ) / r)))) := by
  rw [resizeMainPair]
  by_cases hth : truthyI th = true
  · rw [if_neg (fun hcon => hcon.2 hth),
      if_neg (fun hcon => hcon.1 ((truthyI_some w).mpr hw)),
      if_pos ⟨(truthyI_some w).mpr hw, hth⟩,
      if_neg (by simp)]
    simp [jsVal]
  · rw [if_pos ⟨(truthyI_some w).mpr hw, hth⟩]
    simp [jsVal]

theorem resizeMainPair_height (r : ℚ) (h : ℤ) (hh : h ≠ 0) (tw : Option ℤ) :
    resizeMainPair r (some Changed.height) tw (some h)
      = (some (max 1 (round ((h : ℚ) * r))), some h) := by
  rw [resizeMainPair]
  by_cases htw : truthyI tw = true
  · rw [if_neg (fun hcon => hcon.2 ((truthyI_some h).mpr hh)),
      if_neg (fun hcon => hcon.1 htw),
      if_pos ⟨htw, (truthyI_some h).mpr hh⟩,
      if_pos rfl]
    simp [jsVal]
  · rw [if_neg (fun hcon => hcon.2 ((truthyI_some h).mpr hh)),
      if_pos ⟨htw, (truthyI_some h).mpr hh⟩]
    simp [jsVal]

theorem resizeClampPair_of_small_w (r : ℚ) (w b : ℤ)
    (hwM : w ≤ MAX_DIMENSION) (hb1 : 1 ≤ b) :
    resizeClampPair r (some w, some b)
      = if MAX_DIMENSION < b then
          (some (max 1 (round ((MAX_DIMENSION : ℚ) * r))), some MAX_DIMENSION)
        else (some w, some b) := by
  rw [resizeClampPair, resizeClampW,
    if_neg (by rintro ⟨-, hcon⟩; simp [jsVal] at hcon; omega)]
  rw [resizeClampH]
  by_cases hc : MAX_DIMENSION < b
  · rw [if_pos ⟨by simp [truthyI]; omega, by simp [jsVal]; omega⟩, if_pos hc]
  · rw [if_neg (by rintro ⟨-, hcon⟩; simp [jsVal] at hcon; omega), if_neg hc]

/-- The resize alignment as an explicit equation, in resize mode with kept
aspect and non-zero original dimensions. -/
theorem alignResize_eq (s : ToolkitState) (changed : Option Changed)
    (hm : s.mode = Mode.resize) (hk : s.keepAspectInResize = true)
    (hwne : s.originalWidth ≠ 0) (hhne : s.originalHeight ≠ 0) :
    alignResizeDimensionsToAspect s changed
      = { s with
          targetWidth :=
            (resizeClampPair ((s.originalWidth : ℚ) / (s.originalHeight : ℚ))
              (resizeMainPair ((s.originalWidth : ℚ) / (s.originalHeight : ℚ))
                changed s.targetWidth s.targetHeight)).1,
          targetHeight :=
            (resizeClampPair ((s.originalWidth : ℚ) / (s.originalHeight : ℚ))
              (resizeMainPair ((s.originalWidth : ℚ) / (s.originalHeight : ℚ))
                changed s.targetWidth s.targetHeight)).2 } := by
  rw [alignResizeDimensionsToAspect, if_neg (by rw [hm, hk]; simp),
    if_pos hwne, if_pos hhne]



/-- If the computed width `round(h*r)` exceeds the bound for a height
`h ≤ MAX_DIMENSION`, the ratio exceeds 1, so the height rewritten by the
width clamp fits the bound and the height clamp does not fire. -/
theorem roundMdivR_le (r : ℚ) (hr : 0 < r) (h : ℤ)
    (hhM : h ≤ MAX_DIMENSION)
    (hgt : MAX_DIMENSION < round ((h : ℚ) * r)) :
    round ((MAX_DIMENSION : ℚ) / r) ≤ MAX_DIMENSION := by
  have h1 : ((MAX_DIMENSION : ℤ) : ℚ) + 1/2 ≤ (h : ℚ) * r :=
    half_le_of_lt_round _ _ hgt
  have h2 : (h : ℚ) * r ≤ ((MAX_DIMENSION : ℤ) : ℚ) * r := by
    apply mul_le_mul_of_nonneg_right _ hr.le
    exact_mod_cast hhM
  have hM : ((MAX_DIMENSION : ℤ) : ℚ) = 8192 := by norm_num [MAX_DIMENSION]
  rw [hM] at h1 h2 ⊢
  apply roundq_le_of_lt_half
  rw [div_lt_iff₀ hr]
  nlinarith

theorem resizeClampPair_of_height_edit (r : ℚ) (hr : 0 < r) (h : ℤ)
    (hhM : h ≤ MAX_DIMENSION) :
    resizeClampPair r (some (max 1 (round ((h : ℚ) * r))), some h)
      = if MAX_DIMENSION < max 1 (round ((h : ℚ) * r)) then
          (some MAX_DIMENSION, some (max 1 (round ((MAX_DIMENSION : ℚ) / r))))
        else (some (max 1 (round ((h : ℚ) * r))), some h) := by
  have hM := MAX_DIMENSION_one_le
  by_cases hc : MAX_DIMENSION < max 1 (round ((h : ℚ) * r))
  · have hc' : MAX_DIMENSION < round ((h : ℚ) * r) := by
      rcases lt_max_iff.mp hc with hcon | hgood
      · omega
      · exact hgood
    have hdiv := roundMdivR_le r hr h hhM hc'
    rw [if_pos hc, resizeClampPair, resizeClampW,
      if_pos ⟨by simp [truthyI]; omega, by simp [jsVal]; omega⟩,
      resizeClampH, if_neg (by rintro ⟨-, hcon⟩; simp [jsVal] at hcon; omega)]
  · rw [if_neg hc, resizeClampPair, resizeClampW,
      if_neg (by rintro ⟨-, hcon⟩; simp [jsVal] at hcon; omega),
      resizeClampH, if_neg (by rintro ⟨-, hcon⟩; simp [jsVal] at hcon; omega)]

/-- A state with a 2:1 image loaded in crop mode where the width field has
been cleared: the stored aspect ratio is 2. -/
def cropDemoState : ToolkitState :=
  { file := some { name := "photo.png", size := 1000, type := "image/png" },
    objectUrl := some 0, resultUrl := none, resultSize := 0,
    lastBlob := none, lastDownloadName := none, processing := false,
    statusMessage := "", errorMessage := "", cropper := true,
    originalWidth := 1600, originalHeight := 800, aspectRatio := 2,
    selectedFormatValue := "image/png", quality := 0.85,
    maintainAspect := true, keepAspectInResize := true, lastChanged := none,
    targetWidth := none, targetHeight := some 100, smoothing := "high",
    addPrivateSuffix := true, mode := Mode.crop,
    cropShape := CropShape.square, selectedPresetValue := "custom",
    nextUrl := 1, liveUrls := [0] }

/-- C1 counterexample: in crop mode with aspect kept (ratio 2) and the
width field cleared, typing 8192 into the height field sets
`targetWidth = 16384 > MAX_DIMENSION` — the crop-mode re-alignment has no
upper clamp, refuting the claimed `[1, 8192]` bound. -/
theorem targetDims_bounded_counterexample :
    (handleTargetHeightInput cropDemoState (some 8192)).targetWidth
        = some 16384 ∧
    MAX_DIMENSION < 16384 := by
  refine ⟨?_, by decide⟩
  simp only [handleTargetHeightInput]
  rw [show (match Option.map (fun q => round q) (some (8192 : ℚ)) with
      | some v => if 0 < v then some (min v MAX_DIMENSION) else none
      | none => none) = some (8192 : ℤ) from by
    show (if 0 < round ((8192 : ℚ)) then
        some (min (round ((8192 : ℚ))) MAX_DIMENSION) else none) = some 8192
    rw [round_ofNat, if_pos (by decide)]
    norm_num [MAX_DIMENSION]]
  simp [alignTargetDimensionsToAspect, alignTarget_mode_eq, cropDemoState,
    truthyI, jsVal]
  norm_num [round_eq]

/-- C1 (amended): the width/height input handlers always leave the edited
field unset or in `[1, MAX_DIMENSION]`; in resize mode with kept aspect
they bound the paired field too; the resize-mode re-alignment and preset
application bound both fields.  (The crop-mode re-alignment, reset and
use-full-image enforce only the lower bound.) -/
theorem targetDims_bounded_amended (s : ToolkitState) (input : Option ℚ)
    (changed : Option Changed) (preset : PresetOption)
    (hw : DimPos s.targetWidth) (hh : DimPos s.targetHeight)
    (how : 0 ≤ s.originalWidth) (hoh : 0 ≤ s.originalHeight) :
    DimOk ((handleTargetWidthInput s input).targetWidth) ∧
    DimOk ((handleTargetHeightInput s input).targetHeight) ∧
    (s.mode = Mode.resize ∧ s.keepAspectInResize = true →
      DimOk ((handleTargetWidthInput s input).targetHeight) ∧
      DimOk ((handleTargetHeightInput s input).targetWidth) ∧
      DimOk ((alignResizeDimensionsToAspect s changed).targetWidth) ∧
      DimOk ((alignResizeDimensionsToAspect s changed).targetHeight)) ∧
    DimOk ((applyPresetDimensions s preset).targetWidth) ∧
    DimOk ((applyPresetDimensions s preset).targetHeight) :=
  ⟨(handleTargetWidthInput_dimOk s input hh how hoh).1,
   (handleTargetHeightInput_dimOk s input hw how hoh).1,
   fun hrk =>
     ⟨(handleTargetWidthInput_dimOk s input hh how hoh).2 hrk,
      (handleTargetHeightInput_dimOk s input hw how hoh).2 hrk,
      (alignResize_dimOk s changed hrk.1 hrk.2 hw hh how hoh).1,
      (alignResize_dimOk s changed hrk.1 hrk.2 hw hh how hoh).2⟩,
   (applyPresetDimensions_dimOk s preset how hoh).1,
   (applyPresetDimensions_dimOk s preset how hoh).2⟩

/-- A resize-mode state with a 1600×800 image and both targets set. -/
def resizeDemoState : ToolkitState :=
  { file := some { name := "photo.png", size := 1000, type := "image/png" },
    objectUrl := some 0, resultUrl := none, resultSize := 0,
    lastBlob := none, lastDownloadName := none, processing := false,
    statusMessage := "", errorMessage := "", cropper := false,
    originalWidth := 1600, originalHeight := 800, aspectRatio := 2,
    selectedFormatValue := "image/png", quality := 0.85,
    maintainAspect := true, keepAspectInResize := true, lastChanged := none,
    targetWidth := some 1600, targetHeight := some 800, smoothing := "high",
    addPrivateSuffix := true, mode := Mode.resize,
    cropShape := CropShape.square, selectedPresetValue := "custom",
    nextUrl := 1, liveUrls := [0] }

/-- Witness for `targetDims_bounded_amended` at a concrete resize state. -/
theorem targetDims_bounded_amended_wit :
    DimOk ((handleTargetWidthInput resizeDemoState (some 500)).targetWidth) :=
  (targetDims_bounded_amended resizeDemoState (some 500) none
    { value := "avatar_github", label := "GitHub Avatar · 500×500",
      width := 500, height := 500, maintainAspect := some true,
      shape := some CropShape.square }
    (Or.inr ⟨1600, rfl, by decide⟩) (Or.inr ⟨800, rfl, by decide⟩)
    (by decide) (by decide)).1



/-- C3: in resize mode with the aspect lock on, editing the width field to
a valid `w` makes `targetHeight = max 1 (round (w / (originalWidth /
originalHeight)))`, and editing the height to `h` makes
`targetWidth = max 1 (round (h * (originalWidth / originalHeight)))`, with
the final proportional clamp to `MAX_DIMENSION` when the recomputed value
overflows. -/
theorem resize_aspect_lock_recompute (s : ToolkitState) (w h : ℤ)
    (hmode : s.mode = Mode.resize) (hkeep : s.keepAspectInResize = true)
    (how : 1 ≤ s.originalWidth) (hoh : 1 ≤ s.originalHeight)
    (hw1 : 1 ≤ w) (hwM : w ≤ MAX_DIMENSION)
    (hh1 : 1 ≤ h) (hhM : h ≤ MAX_DIMENSION) :
    ((max 1 (round ((w : ℚ) / ((s.originalWidth : ℚ) / (s.originalHeight : ℚ))))
        ≤ MAX_DIMENSION →
      (handleTargetWidthInput s (some (w : ℚ))).targetWidth = some w ∧
      (handleTargetWidthInput s (some (w : ℚ))).targetHeight
        = some (max 1 (round ((w : ℚ) /
            ((s.originalWidth : ℚ) / (s.originalHeight : ℚ)))))) ∧
     (MAX_DIMENSION <
        max 1 (round ((w : ℚ) / ((s.originalWidth : ℚ) / (s.originalHeight : ℚ)))) →
      (handleTargetWidthInput s (some (w : ℚ))).targetWidth
        = some (max 1 (round ((MAX_DIMENSION : ℚ) *
            ((s.originalWidth : ℚ) / (s.originalHeight : ℚ))))) ∧
      (handleTargetWidthInput s (some (w : ℚ))).targetHeight
        = some MAX_DIMENSION)) ∧
    ((max 1 (round ((h : ℚ) * ((s.originalWidth : ℚ) / (s.originalHeight : ℚ))))
        ≤ MAX_DIMENSION →
      (handleTargetHeightInput s (some (h : ℚ))).targetHeight = some h ∧
      (handleTargetHeightInput s (some (h : ℚ))).targetWidth
        = some (max 1 (round ((h : ℚ) *
            ((s.originalWidth : ℚ) / (s.originalHeight : ℚ)))))) ∧
     (MAX_DIMENSION <
        max 1 (round ((h : ℚ) * ((s.originalWidth : ℚ) / (s.originalHeight : ℚ)))) →
      (handleTargetHeightInput s (some (h : ℚ))).targetWidth = some MAX_DIMENSION ∧
      (handleTargetHeightInput s (some (h : ℚ))).targetHeight
        = some (max 1 (round ((MAX_DIMENSION : ℚ) /
            ((s.originalWidth : ℚ) / (s.originalHeight : ℚ))))))) := by
  have hwne : s.originalWidth ≠ 0 := by omega
  have hhne : s.originalHeight ≠ 0 := by omega
  have hr : (0 : ℚ) < (s.originalWidth : ℚ) / (s.originalHeight : ℚ) := by
    apply div_pos
    · exact_mod_cast (by omega : (0 : ℤ) < s.originalWidth)
    · exact_mod_cast (by omega : (0 : ℤ) < s.originalHeight)
  have hWeq : handleTargetWidthInput s (some (w : ℚ))
      = alignResizeDimensionsToAspect
          { s with targetWidth := some w,
                   selectedPresetValue := CUSTOM_PRESET_VALUE,
                   lastChanged := some Changed.width } (some Changed.width) := by
    simp only [handleTargetWidthInput]
    rw [show (match Option.map (fun q => round q) (some (w : ℚ)) with
        | some v => if 0 < v then some (min v MAX_DIMENSION) else none
        | none => none) = some w from by
      show (if 0 < round ((w : ℚ)) then
          some (min (round ((w : ℚ))) MAX_DIMENSION) else none) = some w
      rw [round_intCast, if_pos (by omega), min_eq_left hwM]]
    split_ifs with h1 h2 h3
    · have h1b : s.mode = Mode.crop := h1
      rw [hmode] at h1b
      simp at h1b
    · have h1b : s.mode = Mode.crop := h1
      rw [hmode] at h1b
      simp at h1b
    · rfl
    · exact absurd ⟨hmode, hkeep⟩ h3
  have hHeq : handleTargetHeightInput s (some (h : ℚ))
      = alignResizeDimensionsToAspect
          { s with targetHeight := some h,
                   selectedPresetValue := CUSTOM_PRESET_VALUE,
                   lastChanged := some Changed.height } (some Changed.height) := by
    simp only [handleTargetHeightInput]
    rw [show (match Option.map (fun q => round q) (some (h : ℚ)) with
        | some v => if 0 < v then some (min v MAX_DIMENSION) else none
        | none => none) = some h from by
      show (if 0 < round ((h : ℚ)) then
          some (min (round ((h : ℚ))) MAX_DIMENSION) else none) = some h
      rw [round_intCast, if_pos (by omega), min_eq_left hhM]]
    split_ifs with h1 h2 h3
    · have h1b : s.mode = Mode.crop := h1
      rw [hmode] at h1b
      simp at h1b
    · have h1b : s.mode = Mode.crop := h1
      rw [hmode] at h1b
      simp at h1b
    · rfl
    · exact absurd ⟨hmode, hkeep⟩ h3
  have hWres := alignResize_eq
      { s with targetWidth := some w,
               selectedPresetValue := CUSTOM_PRESET_VALUE,
               lastChanged := some Changed.width } (some Changed.width)
      hmode hkeep hwne hhne
  have hHres := alignResize_eq
      { s with targetHeight := some h,
               selectedPresetValue := CUSTOM_PRESET_VALUE,
               lastChanged := some Changed.height } (some Changed.height)
      hmode hkeep hwne hhne
  refine ⟨⟨fun hle => ?_, fun hgt => ?_⟩, ⟨fun hle => ?_, fun hgt => ?_⟩⟩
  · rw [hWeq, hWres]
    simp only
    rw [resizeMainPair_width _ w (by omega) _,
      resizeClampPair_of_small_w _ w _ hwM (le_max_left _ _),
      if_neg (not_lt.mpr hle)]
    exact ⟨rfl, rfl⟩
  · rw [hWeq, hWres]
    simp only
    rw [resizeMainPair_width _ w (by omega) _,
      resizeClampPair_of_small_w _ w _ hwM (le_max_left _ _),
      if_pos hgt]
    exact ⟨rfl, rfl⟩
  · rw [hHeq, hHres]
    simp only
    rw [resizeMainPair_height _ h (by omega) _,
      resizeClampPair_of_height_edit _ hr h hhM,
      if_neg (not_lt.mpr hle)]
    exact ⟨rfl, rfl⟩
  · rw [hHeq, hHres]
    simp only
    rw [resizeMainPair_height _ h (by omega) _,
      resizeClampPair_of_height_edit _ hr h hhM,
      if_pos hgt]
    exact ⟨rfl, rfl⟩

/-- Witness for `resize_aspect_lock_recompute`: editing the width of a
1600×800 image to 1000 recomputes the height as 500. -/
theorem resize_aspect_lock_recompute_wit :
    (handleTargetWidthInput resizeDemoState (some ((1000 : ℤ) : ℚ))).targetWidth
      = some 1000 ∧
    (handleTargetWidthInput resizeDemoState (some ((1000 : ℤ) : ℚ))).targetHeight
      = some (max 1 (round (((1000 : ℤ) : ℚ) /
          ((resizeDemoState.originalWidth : ℚ) /
            (resizeDemoState.originalHeight : ℚ))))) :=
  (resize_aspect_lock_recompute resizeDemoState 1000 800 rfl rfl
    (by decide) (by decide) (by decide) (by decide) (by decide)
    (by decide)).1.1
    (by norm_num [resizeDemoState, round_eq, MAX_DIMENSION])



/-! ## utils/format.ts: `formatBytes`; file selection and its error paths -/

/-- `UNITS = ['B', 'KB', 'MB', 'GB']`. -/
def UNITS : List String := ["B", "KB", "MB", "GB"]

/-- The `while (value >= 1024 && unitIndex < UNITS.length - 1)` loop of
`formatBytes`; the unit index bound (3) caps the iteration count, supplied
as fuel. -/
def fbLoop : ℕ → ℚ → ℕ → ℚ × ℕ
  | 0, v, i => (v, i)
  | fuel + 1, v, i =>
    if 1024 ≤ v ∧ i < 3 then fbLoop fuel (v / 1024) (i + 1) else (v, i)

/-- Decimal rendering of a natural number padded to `d` digits. -/
def natToPaddedString (n d : ℕ) : String :=
  let str := toString n
  String.mk (List.replicate (d - str.length) '0') ++ str

/-- `Number.prototype.toFixed` on a non-negative rational: round at `d`
fractional digits (ties up, as JS picks the larger `n`) and render. -/
def toFixed (v : ℚ) (d : ℕ) : String :=
  let m := (round (v * (10 : ℚ) ^ d)).toNat
  if d = 0 then toString m
  else toString (m / 10 ^ d) ++ "." ++ natToPaddedString (m % 10 ^ d) d

/-- `formatBytes(input, fractionDigits = 1)` from utils/format.ts.  In the
rational model every value is finite, so only the negativity test of
`!Number.isFinite(input) || input < 0` remains. -/
def formatBytes (input : ℚ) (fractionDigits : ℕ) : String :=
  if input < 0 then "0 B"
  else
    let p := fbLoop 3 input 0
    toFixed p.1 (if 10 ≤ p.1 ∨ p.2 = 0 then 0 else fractionDigits) ++ " " ++
      (UNITS.getD p.2 "")

/-- The oversize error template of `handleFileSelection`:
`File is ${formatBytes(candidate.size)}. Please keep images under
${formatBytes(MAX_FILE_SIZE_BYTES)}.` -/
def oversizeMessage (size : ℕ) : String :=
  "File is " ++ formatBytes (size : ℚ) 1 ++ ". Please keep images under " ++
    formatBytes ((MAX_FILE_SIZE_BYTES : ℚ)) 1 ++ "."

/-- `destroyCropper()`. -/
def destroyCropper (s : ToolkitState) : ToolkitState := { s with cropper := false }

/-- `cleanupObjectUrl()`: revoke and clear the input object URL. -/
def cleanupObjectUrl (s : ToolkitState) : ToolkitState :=
  match s.objectUrl with
  | some u => { s with liveUrls := s.liveUrls.erase u, objectUrl := none }
  | none => s

/-- `cleanupResultUrl()`: revoke and clear the result object URL and the
cached blob and name. -/
def cleanupResultUrl (s : ToolkitState) : ToolkitState :=
  match s.resultUrl with
  | some u =>
      { s with liveUrls := s.liveUrls.erase u, resultUrl := none,
               resultSize := 0, lastBlob := none, lastDownloadName := none }
  | none => s

/-- `resetState()`. -/
def resetState (s : ToolkitState) : ToolkitState :=
  let s1 := cleanupResultUrl (cleanupObjectUrl (destroyCropper s))
  { s1 with file := none, statusMessage := "", errorMessage := "",
            originalWidth := 0, originalHeight := 0, aspectRatio := 1,
            targetWidth := none, targetHeight := none,
            maintainAspect := true, keepAspectInResize := true,
            lastChanged := none, cropShape := CropShape.square,
            selectedPresetValue := CUSTOM_PRESET_VALUE }

/-- `handleFileSelection(candidate)`, with the awaited `measureImage`
promise supplied as an oracle (`Except.error` is its rejection message).
Object-URL creation draws a fresh identifier from the `nextUrl` counter. -/
def handleFileSelection (s : ToolkitState) (candidate : Option FileRec)
    (measured : Except String (ℤ × ℤ)) : ToolkitState :=
  match candidate with
  | none => s
  | some cand =>
    if MAX_FILE_SIZE_BYTES < cand.size then
      { resetState s with errorMessage := oversizeMessage cand.size }
    else
      let s1 := resetState s
      let s2 := { s1 with file := some cand, addPrivateSuffix := true,
                          selectedFormatValue := "image/png", quality := 0.85,
                          smoothing := "high",
                          statusMessage := "Image loaded. Adjust settings as needed.",
                          selectedPresetValue := CUSTOM_PRESET_VALUE }
      let s3 := { s2 with objectUrl := some s2.nextUrl,
                          liveUrls := s2.liveUrls ++ [s2.nextUrl],
                          nextUrl := s2.nextUrl + 1 }
      match measured with
      | Except.error msg => cleanupObjectUrl { s3 with errorMessage := msg }
      | Except.ok (width, height) =>
          let s4 := { s3 with
            originalWidth := width, originalHeight := height,
            aspectRatio := if width ≠ 0 ∧ height ≠ 0
              then (width : ℚ) / (height : ℚ) else 1 }
          let s5 :=
            if MAX_DIMENSION < width ∨ MAX_DIMENSION < height then
              { s4 with
                targetWidth := some ⌊(width : ℚ) *
                  min ((MAX_DIMENSION : ℚ) / (width : ℚ))
                      ((MAX_DIMENSION : ℚ) / (height : ℚ))⌋,
                targetHeight := some ⌊(height : ℚ) *
                  min ((MAX_DIMENSION : ℚ) / (width : ℚ))
                      ((MAX_DIMENSION : ℚ) / (height : ℚ))⌋,
                statusMessage := "Image scaled down for safety · output capped at 8192px" }
            else { s4 with targetWidth := some width, targetHeight := some height }
          if s5.mode = Mode.resize ∧ s5.keepAspectInResize = true then
            alignResizeDimensionsToAspect s5 none
          else s5

theorem resetState_file (s : ToolkitState) : (resetState s).file = none := by
  rw [resetState]

theorem resetState_objectUrl (s : ToolkitState) :
    (resetState s).objectUrl = none := by
  rw [resetState]
  cases h1 : s.objectUrl <;>
    simp [cleanupObjectUrl, cleanupResultUrl, destroyCropper, h1] <;>
      cases h2 : s.resultUrl <;> simp [h2]

theorem resetState_nextUrl (s : ToolkitState) :
    (resetState s).nextUrl = s.nextUrl := by
  rw [resetState]
  cases h1 : s.objectUrl <;>
    simp [cleanupObjectUrl, cleanupResultUrl, destroyCropper, h1] <;>
      cases h2 : s.resultUrl <;> simp [h2]

theorem oversizeMessage_ne_empty (n : ℕ) : oversizeMessage n ≠ "" := by
  intro hcon
  have hlen := congrArg String.length hcon
  rw [oversizeMessage] at hlen
  simp only [String.length_append] at hlen
  have h8 : ("File is " : String).length = 8 := by decide
  rw [h8] at hlen
  simp at hlen

/-- C5: a candidate file above `MAX_FILE_SIZE_BYTES` is rejected locally:
the state is reset, an oversize error message (mentioning the file's size
and the limit via `formatBytes`) is set, no file is loaded and no object
URL is created for the candidate. -/
theorem oversize_file_rejected (s : ToolkitState) (cand : FileRec)
    (measured : Except String (ℤ × ℤ))
    (hbig : MAX_FILE_SIZE_BYTES < cand.size) :
    handleFileSelection s (some cand) measured
      = { resetState s with errorMessage := oversizeMessage cand.size } ∧
    (handleFileSelection s (some cand) measured).file = none ∧
    (handleFileSelection s (some cand) measured).objectUrl = none ∧
    (handleFileSelection s (some cand) measured).errorMessage
      = oversizeMessage cand.size ∧
    (handleFileSelection s (some cand) measured).errorMessage ≠ "" ∧
    (handleFileSelection s (some cand) measured).nextUrl = s.nextUrl := by
  have heq : handleFileSelection s (some cand) measured
      = { resetState s with errorMessage := oversizeMessage cand.size } := by
    simp only [handleFileSelection]
    rw [if_pos hbig]
  refine ⟨heq, ?_, ?_, ?_, ?_, ?_⟩
  · rw [heq]
    show (resetState s).file = none
    exact resetState_file s
  · rw [heq]
    show (resetState s).objectUrl = none
    exact resetState_objectUrl s
  · rw [heq]
  · rw [heq]
    show oversizeMessage cand.size ≠ ""
    exact oversizeMessage_ne_empty cand.size
  · rw [heq]
    show (resetState s).nextUrl = s.nextUrl
    exact resetState_nextUrl s

/-- Witness for `oversize_file_rejected`: a 60 MB file is rejected. -/
theorem oversize_file_rejected_wit :
    (handleFileSelection resizeDemoState
        (some { name := "big.png", size := 60 * 1024 * 1024,
                type := "image/png" })
        (Except.ok (100, 100))).file = none :=
  (oversize_file_rejected resizeDemoState
    { name := "big.png", size := 60 * 1024 * 1024, type := "image/png" }
    (Except.ok (100, 100)) (by decide)).2.1



/-! ## Settings persistence (`SETTINGS_KEY` block and `onMount` restore) -/

/-- The object literal written by the reactive persist block under
`image-toolkit-settings-v1`:
`{ selectedFormatValue, quality, selectedPresetValue, mode, smoothing,
keepAspectInResize }` — and nothing else. -/
structure StoredSettings where
  selectedFormatValue : String
  quality : ℚ
  selectedPresetValue : String
  mode : Mode
  smoothing : String
  keepAspectInResize : Bool
deriving DecidableEq, Repr

/-- The reactive `localStorage.setItem(SETTINGS_KEY, JSON.stringify({...}))`
block, reduced to the stored value. -/
def persistSettings (s : ToolkitState) : StoredSettings :=
  { selectedFormatValue := s.selectedFormatValue, quality := s.quality,
    selectedPresetValue := s.selectedPresetValue, mode := s.mode,
    smoothing := s.smoothing, keepAspectInResize := s.keepAspectInResize }

/-- The parsed JSON read back on mount: every field may be absent, and
`mode` arrives as a raw string that is shape-checked against
`'resize' | 'crop'`. -/
structure RawSettings where
  selectedFormatValue : Option String
  quality : Option ℚ
  selectedPresetValue : Option String
  mode : Option String
  smoothing : Option String
  keepAspectInResize : Option Bool
deriving DecidableEq, Repr

def modeToString : Mode → String
  | Mode.resize => "resize"
  | Mode.crop => "crop"

/-- `JSON.stringify`/`JSON.parse` round-trip of the stored settings. -/
def encodeStored (st : StoredSettings) : RawSettings :=
  { selectedFormatValue := some st.selectedFormatValue,
    quality := some st.quality,
    selectedPresetValue := some st.selectedPresetValue,
    mode := some (modeToString st.mode),
    smoothing := some st.smoothing,
    keepAspectInResize := some st.keepAspectInResize }

/-- JS truthiness of an optional string (`undefined` and `''` are falsy). -/
def truthyS : Option String → Bool
  | none => false
  | some v => v ≠ ""

/-- The settings restore in `onMount`: `if (s.selectedFormatValue) ...;
if (typeof s.quality === 'number') ...; if (s.selectedPresetValue) ...;
if (s.mode === 'resize' || s.mode === 'crop') ...; if (s.smoothing) ...;
if (typeof s.keepAspectInResize === 'boolean') ...`. -/
def restoreSettings (s : ToolkitState) (raw : RawSettings) : ToolkitState :=
  let s1 := if truthyS raw.selectedFormatValue then
      { s with selectedFormatValue := raw.selectedFormatValue.getD "" } else s
  let s2 := match raw.quality with
    | some q => { s1 with quality := q }
    | none => s1
  let s3 := if truthyS raw.selectedPresetValue then
      { s2 with selectedPresetValue := raw.selectedPresetValue.getD "" } else s2
  let s4 := if raw.mode = some "resize" then { s3 with mode := Mode.resize }
    else if raw.mode = some "crop" then { s3 with mode := Mode.crop }
    else s3
  let s5 := if truthyS raw.smoothing then
      { s4 with smoothing := raw.smoothing.getD "" } else s4
  match raw.keepAspectInResize with
  | some b => { s5 with keepAspectInResize := b }
  | none => s5

/-- C7: the persisted settings are exactly the six preference fields —
they determine the stored value, which mentions no file, image data,
dimension or object URL — and restoring what was persisted recovers those
six fields (given non-empty strings, which the truthiness checks demand)
while leaving every other field of the state untouched. -/
theorem settings_persist_roundtrip (s s0 : ToolkitState)
    (hfmt : s.selectedFormatValue ≠ "") (hpre : s.selectedPresetValue ≠ "")
    (hsmo : s.smoothing ≠ "") :
    (∀ t u : ToolkitState,
      t.selectedFormatValue = u.selectedFormatValue → t.quality = u.quality →
      t.selectedPresetValue = u.selectedPresetValue → t.mode = u.mode →
      t.smoothing = u.smoothing → t.keepAspectInResize = u.keepAspectInResize →
      persistSettings t = persistSettings u) ∧
    persistSettings (restoreSettings s0 (encodeStored (persistSettings s)))
      = persistSettings s ∧
    (restoreSettings s0 (encodeStored (persistSettings s))).file = s0.file ∧
    (restoreSettings s0 (encodeStored (persistSettings s))).objectUrl
      = s0.objectUrl ∧
    (restoreSettings s0 (encodeStored (persistSettings s))).resultUrl
      = s0.resultUrl ∧
    (restoreSettings s0 (encodeStored (persistSettings s))).targetWidth
      = s0.targetWidth ∧
    (restoreSettings s0 (encodeStored (persistSettings s))).targetHeight
      = s0.targetHeight ∧
    (restoreSettings s0 (encodeStored (persistSettings s))).originalWidth
      = s0.originalWidth ∧
    (restoreSettings s0 (encodeStored (persistSettings s))).originalHeight
      = s0.originalHeight ∧
    (restoreSettings s0 (encodeStored (persistSettings s))).liveUrls
      = s0.liveUrls := by
  constructor
  · intro t u h1 h2 h3 h4 h5 h6
    rw [persistSettings, persistSettings, h1, h2, h3, h4, h5, h6]
  · cases hm : s.mode <;>
      simp [restoreSettings, encodeStored, persistSettings, modeToString,
        truthyS, hfmt, hpre, hsmo, hm]

/-- Witness for `settings_persist_roundtrip`. -/
theorem settings_persist_roundtrip_wit :
    persistSettings
      (restoreSettings cropDemoState
        (encodeStored (persistSettings resizeDemoState)))
      = persistSettings resizeDemoState :=
  (settings_persist_roundtrip resizeDemoState cropDemoState
    (by decide) (by decide) (by decide)).2.1

/-! ## utils/download.ts: `downloadBlob`, and the image toolkit
`onDestroy` -/

/-- The DOM state `downloadBlob` manipulates: the children of
`document.body` and the live (created, unrevoked) object URLs, both as
identifier lists with fresh-id counters. -/
structure Dom where
  body : List ℕ
  liveUrls : List ℕ
  nextElem : ℕ
  nextUrl : ℕ
deriving DecidableEq, Repr

/-- `downloadBlob(blob, filename)` from utils/download.ts: create an
anchor, create an object URL, append the anchor to `document.body`, click
it, remove it again and revoke the URL.  The blob and filename do not
affect the DOM bookkeeping. -/
def downloadBlob (d : Dom) : Dom :=
  let link := d.nextElem
  let url := d.nextUrl
  let d1 := { d with nextElem := d.nextElem + 1, nextUrl := d.nextUrl + 1,
                     liveUrls := d.liveUrls ++ [url] }
  let d2 := { d1 with body := d1.body ++ [link] }
  let d3 := { d2 with body := d2.body.erase link }
  { d3 with liveUrls := d3.liveUrls.erase url }

/-- The image toolkit `onDestroy`: `destroyCropper(); cleanupObjectUrl();
cleanupResultUrl();`. -/
def onDestroyToolkit (s : ToolkitState) : ToolkitState :=
  cleanupResultUrl (cleanupObjectUrl (destroyCropper s))

/-- C8: `downloadBlob` releases what it acquires — the anchor is removed
and the URL revoked, so `document.body` and the live URLs are unchanged —
and on destroy the toolkit kills the cropper and revokes both its object
URLs. -/
theorem cleanup_acquire_release (d : Dom) (s : ToolkitState)
    (hbody : ∀ e ∈ d.body, e < d.nextElem)
    (hurls : ∀ u ∈ d.liveUrls, u < d.nextUrl)
    (hnodup : s.liveUrls.Nodup) :
    (downloadBlob d).body = d.body ∧
    (downloadBlob d).liveUrls = d.liveUrls ∧
    (onDestroyToolkit s).cropper = false ∧
    (onDestroyToolkit s).objectUrl = none ∧
    (onDestroyToolkit s).resultUrl = none ∧
    (∀ u, s.objectUrl = some u → u ∉ (onDestroyToolkit s).liveUrls) ∧
    (∀ u, s.resultUrl = some u → u ∉ (onDestroyToolkit s).liveUrls) := by
  have hlink : d.nextElem ∉ d.body := fun hmem => absurd (hbody _ hmem) (by omega)
  have hurl : d.nextUrl ∉ d.liveUrls := fun hmem => absurd (hurls _ hmem) (by omega)
  refine ⟨?_, ?_, ?_, ?_, ?_, ?_, ?_⟩
  · show ((d.body ++ [d.nextElem]).erase d.nextElem) = d.body
    rw [List.erase_append_right _ hlink]
    simp
  · show ((d.liveUrls ++ [d.nextUrl]).erase d.nextUrl) = d.liveUrls
    rw [List.erase_append_right _ hurl]
    simp
  · rw [onDestroyToolkit]
    cases h1 : (cleanupObjectUrl (destroyCropper s)).resultUrl <;>
      simp [cleanupResultUrl, h1] <;>
        cases h2 : s.objectUrl <;>
          simp [cleanupObjectUrl, destroyCropper, h2]
  · rw [onDestroyToolkit]
    cases h2 : s.objectUrl <;>
      simp [cleanupResultUrl, cleanupObjectUrl, destroyCropper, h2] <;>
        cases h1 : s.resultUrl <;> simp [h1]
  · rw [onDestroyToolkit]
    cases h2 : s.objectUrl <;>
      simp [cleanupResultUrl, cleanupObjectUrl, destroyCropper, h2] <;>
        cases h1 : s.resultUrl <;> simp [h1]
  · intro u hu
    rw [onDestroyToolkit]
    cases h1 : s.resultUrl <;>
      simp [cleanupResultUrl, cleanupObjectUrl, destroyCropper, hu, h1]
    · exact hnodup.not_mem_erase
    · intro hmem
      exact hnodup.not_mem_erase (List.mem_of_mem_erase hmem)
  · intro u hu
    rw [onDestroyToolkit]
    cases h2 : s.objectUrl <;>
      simp [cleanupResultUrl, cleanupObjectUrl, destroyCropper, hu, h2]
    · exact hnodup.not_mem_erase
    · exact (hnodup.erase _).not_mem_erase

/-- Witness for `cleanup_acquire_release`. -/
theorem cleanup_acquire_release_wit :
    (downloadBlob
        { body := [0, 1], liveUrls := [5], nextElem := 2, nextUrl := 6 }).body
      = [0, 1] :=
  (cleanup_acquire_release
    { body := [0, 1], liveUrls := [5], nextElem := 2, nextUrl := 6 }
    cropDemoState
    (by decide) (by decide) (by decide)).1



/-! ## Canvas encoding and `generateResult` -/

/-- A canvas, reduced to its pixel dimensions. -/
structure CanvasRec where
  width : ℤ
  height : ℤ
deriving DecidableEq, Repr

/-- `formatImageDimensions` from utils/format.ts. -/
def formatImageDimensions (width height : ℤ) : String :=
  toString (round ((width : ℚ))) ++ " × " ++ toString (round ((height : ℚ)))

/-- `canvasToBlob(canvas, type, quality)`: the promisified
`canvas.toBlob`; a `null` blob from the browser (the oracle argument)
rejects with the fixed message. -/
def canvasToBlob (toBlobResult : Option BlobRec) : Except String BlobRec :=
  match toBlobResult with
  | none => Except.error "Browser could not encode the requested format."
  | some b => Except.ok b

/-- `String.prototype.includes`. -/
def strIncludesL (pat : List Char) : List Char → Bool
  | [] => pat.isEmpty
  | c :: rest => pat.isPrefixOf (c :: rest) || strIncludesL pat rest

def strIncludes (s pat : String) : Bool := strIncludesL pat.data s.data

/-- The head of `generateResult` before the `try`: clear the messages,
raise `processing`, optionally clean the previous result and re-align in
resize mode (`alignResizeDimensionsToAspect(lastChanged ?? 'width')`). -/
def genPrepare (s : ToolkitState) (downloadNow : Bool) : ToolkitState :=
  let s1 := { s with errorMessage := "", statusMessage := "Processing…",
                     processing := true }
  let s2 := if downloadNow then cleanupResultUrl s1 else s1
  if s2.mode = Mode.resize ∧ s2.keepAspectInResize = true then
    alignResizeDimensionsToAspect s2 (some (s2.lastChanged.getD Changed.width))
  else s2

/-- The in-crop-mode `aspectRatio` update that precedes
`getCroppedCanvas`: when the aspect is maintained and both targets are
truthy, a positive finite `targetWidth / targetHeight` becomes the new
ratio. -/
def cropAspectUpdate (t : ToolkitState) : ToolkitState :=
  if t.maintainAspect = true ∧ truthyI t.targetWidth = true ∧
      truthyI t.targetHeight = true then
    let ratio : ℚ := (t.targetWidth.getD 0 : ℚ) / (t.targetHeight.getD 0 : ℚ)
    if 0 < ratio then { t with aspectRatio := ratio } else t
  else t

/-- The canvas-producing part of the `try` block, returning the state as
mutated so far.  In crop mode a missing cropper or a `null` cropped canvas
throws; in resize mode `canvasViaCropperFullFrame` (the oracle
`fullCanvas`) throws on a `null` canvas, and without the aspect lock the
result is stretched to the target size.  The circular mask keeps the
canvas dimensions and is left to the blob oracle. -/
def canvasStage (t : ToolkitState) (width height : ℤ)
    (cropCanvas fullCanvas : Option CanvasRec) :
    ToolkitState × Except String CanvasRec :=
  if t.mode = Mode.crop then
    if t.cropper = false then
      (t, Except.error "Cropper is still initialising. Please try again in a moment.")
    else
      (cropAspectUpdate t,
        match cropCanvas with
        | none => Except.error "Unable to crop image in this browser."
        | some c => Except.ok c)
  else
    (t,
      match fullCanvas with
      | none => Except.error "Unable to prepare canvas in this browser."
      | some c =>
          if t.keepAspectInResize = true then Except.ok c
          else Except.ok { width := width, height := height })

/-- The `catch` block of `generateResult`: an encode error on an AVIF
target gets the dedicated hint, the status is cleared (and `finally`
lowers `processing`). -/
def generateCatch (t : ToolkitState) (msg : String) : ToolkitState :=
  let em :=
    if (selectedFormat t).value = "image/avif" ∧ strIncludes msg "encode" = true
    then "This browser cannot export AVIF yet. Try Chrome 120+ or pick WEBP/JPEG."
    else msg
  { t with errorMessage := em, statusMessage := "", processing := false }

/-- The success tail of the `try` block: cache the blob, swap the result
URL, format the status and remember the download name (and `finally`
lowers `processing`). -/
def generateSuccess (t : ToolkitState) (blob : BlobRec) (canvas : CanvasRec) :
    ToolkitState :=
  let s4 := { t with lastBlob := some blob, resultSize := blob.size }
  let s5 := cleanupResultUrl s4
  { s5 with resultUrl := some s5.nextUrl,
            liveUrls := s5.liveUrls ++ [s5.nextUrl],
            nextUrl := s5.nextUrl + 1,
            statusMessage := "Ready · " ++ formatBytes (blob.size : ℚ) 1 ++
              " • " ++ formatImageDimensions canvas.width canvas.height,
            lastDownloadName := some (deriveFileName
              (s5.file.getD { name := "", size := 0, type := "" }).name
              (selectedFormat s5).extension
              (if s5.addPrivateSuffix = true then some "private" else none)),
            processing := false }

/-- `generateResult(downloadNow)` with the browser canvas/encode outcomes
supplied as oracles. -/
def generateResult (s : ToolkitState) (downloadNow : Bool)
    (cropCanvas fullCanvas : Option CanvasRec)
    (toBlobResult : Option BlobRec) : ToolkitState :=
  if s.file = none then { s with errorMessage := "Select an image first." }
  else
    let s3 := genPrepare s downloadNow
    let width := max 1 (s3.targetWidth.getD s3.originalWidth)
    let height := max 1 (s3.targetHeight.getD s3.originalHeight)
    match canvasStage s3 width height cropCanvas fullCanvas with
    | (t1, Except.error msg) => generateCatch t1 msg
    | (t1, Except.ok canvas) =>
        match canvasToBlob toBlobResult with
        | Except.error msg => generateCatch t1 msg
        | Except.ok blob => generateSuccess t1 blob canvas

theorem cleanupResultUrl_mode (s : ToolkitState) :
    (cleanupResultUrl s).mode = s.mode := by
  rw [cleanupResultUrl]
  cases s.resultUrl <;> rfl

theorem cleanupResultUrl_cropper (s : ToolkitState) :
    (cleanupResultUrl s).cropper = s.cropper := by
  rw [cleanupResultUrl]
  cases s.resultUrl <;> rfl

theorem cleanupResultUrl_format (s : ToolkitState) :
    (cleanupResultUrl s).selectedFormatValue = s.selectedFormatValue := by
  rw [cleanupResultUrl]
  cases s.resultUrl <;> rfl

theorem alignResize_format_eq (s : ToolkitState) (changed : Option Changed) :
    (alignResizeDimensionsToAspect s changed).selectedFormatValue
      = s.selectedFormatValue := by
  simp only [alignResizeDimensionsToAspect]
  split_ifs <;> rfl

theorem alignResize_cropper_eq (s : ToolkitState) (changed : Option Changed) :
    (alignResizeDimensionsToAspect s changed).cropper = s.cropper := by
  simp only [alignResizeDimensionsToAspect]
  split_ifs <;> rfl

theorem genPrepare_mode (s : ToolkitState) (d : Bool) :
    (genPrepare s d).mode = s.mode := by
  simp only [genPrepare]
  split_ifs <;> simp [alignResize_mode_eq, cleanupResultUrl_mode]

theorem genPrepare_cropper (s : ToolkitState) (d : Bool) :
    (genPrepare s d).cropper = s.cropper := by
  simp only [genPrepare]
  split_ifs <;> simp [alignResize_cropper_eq, cleanupResultUrl_cropper]

theorem genPrepare_format (s : ToolkitState) (d : Bool) :
    (genPrepare s d).selectedFormatValue = s.selectedFormatValue := by
  simp only [genPrepare]
  split_ifs <;> simp [alignResize_format_eq, cleanupResultUrl_format]

theorem cropAspectUpdate_format (t : ToolkitState) :
    (cropAspectUpdate t).selectedFormatValue = t.selectedFormatValue := by
  simp only [cropAspectUpdate]
  split_ifs <;> rfl

theorem canvasStage_fst_format (t : ToolkitState) (w h : ℤ)
    (cc fc : Option CanvasRec) :
    (canvasStage t w h cc fc).1.selectedFormatValue
      = t.selectedFormatValue := by
  rw [canvasStage.eq_def]
  split_ifs <;> simp [cropAspectUpdate_format]

theorem canvasStage_ok (t : ToolkitState) (w h : ℤ)
    (cc fc : Option CanvasRec)
    (hcrop : t.mode = Mode.crop → t.cropper = true ∧ cc ≠ none)
    (hfull : fc ≠ none) :
    ∃ c, (canvasStage t w h cc fc).2 = Except.ok c := by
  rw [canvasStage.eq_def]
  by_cases hm : t.mode = Mode.crop
  · obtain ⟨hcropper, hcc⟩ := hcrop hm
    obtain ⟨c, rfl⟩ := Option.ne_none_iff_exists'.mp hcc
    rw [if_pos hm, if_neg (by rw [hcropper]; simp)]
    exact ⟨c, rfl⟩
  · obtain ⟨c, rfl⟩ := Option.ne_none_iff_exists'.mp hfull
    rw [if_neg hm]
    by_cases hk : t.keepAspectInResize = true
    · refine ⟨c, ?_⟩
      show (if t.keepAspectInResize = true then Except.ok c
          else Except.ok { width := w, height := h }) = Except.ok c
      rw [if_pos hk]
    · refine ⟨{ width := w, height := h }, ?_⟩
      show (if t.keepAspectInResize = true then Except.ok c
          else Except.ok { width := w, height := h })
        = Except.ok { width := w, height := h }
      rw [if_neg hk]

theorem selectedFormat_avif (s : ToolkitState) :
    (selectedFormat s).value = "image/avif" ↔
      s.selectedFormatValue = "image/avif" := by
  rw [selectedFormat]
  by_cases h : s.selectedFormatValue = "image/avif"
  · rw [h]
    constructor
    · intro _; rfl
    · intro _
      decide
  · constructor
    · intro hcon
      cases hfind : FORMAT_OPTIONS.find?
          (fun o => o.value = s.selectedFormatValue) with
      | none =>
          rw [hfind] at hcon
          exact absurd hcon (by decide)
      | some o =>
          rw [hfind] at hcon
          have hp := List.find?_some hfind
          have hov : o.value = s.selectedFormatValue := of_decide_eq_true hp
          rw [Option.getD_some] at hcon
          rw [hcon] at hov
          exact absurd hov.symm h
    · intro hcon
      exact absurd hcon h

/-- C6: when `canvas.toBlob` yields no blob, `canvasToBlob` rejects with
the fixed encode message, and `generateResult` (with the canvas stage
succeeding) catches it: the error is surfaced as `errorMessage` — the
dedicated AVIF hint when the selected format is `image/avif` — the status
message is cleared and `processing` ends up false. -/
theorem encode_failure_surfaced (s : ToolkitState) (downloadNow : Bool)
    (cropCanvas fullCanvas : Option CanvasRec)
    (hfile : s.file ≠ none)
    (hcrop : s.mode = Mode.crop → s.cropper = true ∧ cropCanvas ≠ none)
    (hfull : fullCanvas ≠ none) :
    canvasToBlob none
      = Except.error "Browser could not encode the requested format." ∧
    (generateResult s downloadNow cropCanvas fullCanvas none).errorMessage
      = (if s.selectedFormatValue = "image/avif"
         then "This browser cannot export AVIF yet. Try Chrome 120+ or pick WEBP/JPEG."
         else "Browser could not encode the requested format.") ∧
    (generateResult s downloadNow cropCanvas fullCanvas none).statusMessage
      = "" ∧
    (generateResult s downloadNow cropCanvas fullCanvas none).processing
      = false := by
  obtain ⟨cres, hcres⟩ := canvasStage_ok (genPrepare s downloadNow)
    (max 1 ((genPrepare s downloadNow).targetWidth.getD
      (genPrepare s downloadNow).originalWidth))
    (max 1 ((genPrepare s downloadNow).targetHeight.getD
      (genPrepare s downloadNow).originalHeight))
    cropCanvas fullCanvas
    (by rw [genPrepare_mode, genPrepare_cropper]; exact hcrop) hfull
  have hpair : canvasStage (genPrepare s downloadNow)
      (max 1 ((genPrepare s downloadNow).targetWidth.getD
        (genPrepare s downloadNow).originalWidth))
      (max 1 ((genPrepare s downloadNow).targetHeight.getD
        (genPrepare s downloadNow).originalHeight))
      cropCanvas fullCanvas
    = ((canvasStage (genPrepare s downloadNow)
        (max 1 ((genPrepare s downloadNow).targetWidth.getD
          (genPrepare s downloadNow).originalWidth))
        (max 1 ((genPrepare s downloadNow).targetHeight.getD
          (genPrepare s downloadNow).originalHeight))
        cropCanvas fullCanvas).1, Except.ok cres) := by
    rw [← hcres]
  have hgen : generateResult s downloadNow cropCanvas fullCanvas none
      = generateCatch (canvasStage (genPrepare s downloadNow)
          (max 1 ((genPrepare s downloadNow).targetWidth.getD
            (genPrepare s downloadNow).originalWidth))
          (max 1 ((genPrepare s downloadNow).targetHeight.getD
            (genPrepare s downloadNow).originalHeight))
          cropCanvas fullCanvas).1
          "Browser could not encode the requested format." := by
    simp only [generateResult]
    rw [if_neg hfile, hpair]
    rfl
  refine ⟨rfl, ?_, ?_, ?_⟩
  · rw [hgen, generateCatch]
    show (if (selectedFormat _).value = "image/avif" ∧
        strIncludes "Browser could not encode the requested format." "encode"
          = true
      then "This browser cannot export AVIF yet. Try Chrome 120+ or pick WEBP/JPEG."
      else "Browser could not encode the requested format.") = _
    by_cases hav : s.selectedFormatValue = "image/avif"
    · have hfmt : (selectedFormat ((canvasStage (genPrepare s downloadNow)
          (max 1 ((genPrepare s downloadNow).targetWidth.getD
            (genPrepare s downloadNow).originalWidth))
          (max 1 ((genPrepare s downloadNow).targetHeight.getD
            (genPrepare s downloadNow).originalHeight))
          cropCanvas fullCanvas).1)).value = "image/avif" := by
        apply (selectedFormat_avif _).mpr
        rw [canvasStage_fst_format, genPrepare_format]
        exact hav
      rw [if_pos ⟨hfmt, by decide⟩, if_pos hav]
    · rw [if_neg ?_, if_neg hav]
      rintro ⟨hcon, -⟩
      have h2 := (selectedFormat_avif _).mp hcon
      rw [canvasStage_fst_format, genPrepare_format] at h2
      exact absurd h2 hav
  · rw [hgen]
    rfl
  · rw [hgen]
    rfl

/-- Witness for `encode_failure_surfaced`: an AVIF encode failure in crop
mode surfaces the dedicated hint. -/
theorem encode_failure_surfaced_wit :
    (generateResult { cropDemoState with selectedFormatValue := "image/avif" }
        false (some { width := 100, height := 100 })
        (some { width := 1, height := 1 }) none).errorMessage
      = (if ("image/avif" : String) = "image/avif"
         then "This browser cannot export AVIF yet. Try Chrome 120+ or pick WEBP/JPEG."
         else "Browser could not encode the requested format.") := by
  exact (encode_failure_surfaced
    { cropDemoState with selectedFormatValue := "image/avif" }
    false (some { width := 100, height := 100 })
    (some { width := 1, height := 1 })
    (Option.some_ne_none _)
    (fun _ => ⟨rfl, Option.some_ne_none _⟩)
    (Option.some_ne_none _)).2.1


end Toolkit
